import Mathlib

/-!
Shallow embedding of the token-to-identity resolution subsystem of the
Sonic-Brief-PKC backend (`backend_app/app`), covering:

* `app/core/dependencies.py` — `AuthenticationCache` (token-hash keyed
  result cache, TTL 300 s) and `generate_token_hash`;
* `app/core/config.py` — `CosmosDB.get_user_by_email`,
  `CosmosDB.get_user_by_entra_oid`, `CosmosDB.create_user`,
  `CosmosDB.update_user` (both calling patterns);
* `app/services/cached_user_service.py` — `AzureCachedUserService`
  (TTL user-record cache keyed by id / email / entra_oid);
* `app/services/entra_auth.py` — the JWKS key-resolution part of
  `AzureOptimizedEntraAuthService.verify_token` and
  `_fetch_jwks_with_cache`;
* `app/services/user_management_service.py` — `UserManagementService.get_user`
  and `UserManagementService.list_users`;
* `app/routers/auth.py` — `get_or_create_entra_user`,
  `get_current_user_entra`, `get_me`, `get_current_user_cached` and the
  original `get_current_user_any` (lines 866-1012; line 1439 later rebinds
  the module-level name `get_current_user_any` to `get_current_user_cached`,
  but the route handlers defined at lines 1015-1178 captured the original
  function object in their `Depends(...)` defaults, so both functions are
  modelled).

Modelling conventions:
* Python dicts holding user documents become the record `UserRec`; a field
  that may be absent from the dict is an `Option`.
* Wall-clock times (`time.time()`, ISO timestamps) are `Nat` seconds and are
  passed explicitly as `now`; truncated `Nat` subtraction agrees with the
  Python float subtraction whenever `now` is at least the stored timestamp,
  which every theorem's hypotheses guarantee.
* SHA-256 based cache keys (`generate_token_hash`,
  `AzureCachedUserService._get_cache_key`) are replaced by injective
  stand-ins (the raw token, resp. the `(lookup_type, value)` pair): the
  source relies on the hash being collision-free.
* Python dictionaries used as caches become association lists with
  insert-replaces / delete helpers (`alInsert`, `alErase`, `alLookup`).
* `asyncio` concurrency: the per-identifier lock of
  `get_or_create_entra_user` serialises its critical section, so sequences
  of calls are modelled as sequential executions; fire-and-forget background
  tasks (cache refresh, delayed lock cleanup) do not run inside the modelled
  window.
* Every user-store round trip is appended to an effect log (`StoreOp`), so
  "no store lookup / write" claims become facts about that log.
-/

/-- One user document of the Cosmos auth container (a Python dict).
Fields that the code may leave absent are `Option`; timestamps are `Nat`
seconds. -/
structure UserRec where
  id : String
  type : Option String := none
  email : Option String := none
  entra_oid : Option String := none
  roles : Option (List String) := none
  role : Option String := none
  auth_method : Option String := none
  auth_type : Option String := none
  display_name : Option String := none
  is_active : Option Bool := none
  hashed_password : Option String := none
  name : Option String := none
  created_via : Option String := none
  created_at : Option Nat := none
  updated_at : Option Nat := none
  last_login : Option Nat := none
  deriving Repr, DecidableEq

/-- The claim set of a verified token (`payload` in the Python code); every
claim that the resolution code reads. `none` models an absent claim. -/
structure Claims where
  oid : Option String := none
  preferred_username : Option String := none
  email : Option String := none
  upn : Option String := none
  unique_name : Option String := none
  roles : Option (List String) := none
  appid : Option String := none
  azp : Option String := none
  appidacr : Option String := none
  scp : Option String := none
  name : Option String := none
  given_name : Option String := none
  family_name : Option String := none
  deriving Repr, DecidableEq

/-- Errors raised by the embedded code: `http code detail` models a
`fastapi.HTTPException`, the others model plain Python exceptions that the
routers catch and convert. -/
inductive Err where
  | http (code : Nat) (detail : String)
  | valueError (msg : String)
  | typeError (msg : String)
  | notFound
  | conflict
  deriving Repr, DecidableEq

/-- One user-store (Cosmos auth container) round trip, recorded in the
effect log. -/
inductive StoreOp where
  | readEmail (email : String)
  | readOid (oid : String)
  | readId (id : String)
  | create (id : String)
  | replace (id : String)
  | upsert (id : String)
  deriving Repr, DecidableEq

/-- Entry of the `AuthenticationCache` dict: `{"user_data": ..., "timestamp": ...}`
(`app/core/dependencies.py` lines 135-142). -/
structure ACacheEntry where
  user_data : UserRec
  timestamp : Nat
  deriving Repr, DecidableEq

/-- Entry of the `AzureCachedUserService.user_cache` dict:
`{"data": ..., "timestamp": ..., "ttl": ...}`. The cached `data` may itself
be `None` (a miss fetched from the store is cached as well). -/
structure UCacheEntry where
  data : Option UserRec
  timestamp : Nat
  ttl : Nat
  deriving Repr, DecidableEq

/-- Whole mutable state touched by the resolution code: the auth container
documents, the user-record cache, the token-hash auth-result cache, and the
store-effect log. -/
structure Sys where
  store : List UserRec
  userCache : List ((String × String) × UCacheEntry) := []
  authCache : List (String × ACacheEntry) := []
  ops : List StoreOp := []
  deriving Repr, DecidableEq

/-- Association-list lookup (Python `dict` read). -/
def alLookup {κ β : Type} [DecidableEq κ] : List (κ × β) → κ → Option β
  | [], _ => none
  | p :: t, k => if p.1 = k then some p.2 else alLookup t k

/-- Association-list delete (Python `del dict[k]`, total). -/
def alErase {κ β : Type} [DecidableEq κ] : List (κ × β) → κ → List (κ × β)
  | [], _ => []
  | p :: t, k => if p.1 = k then alErase t k else p :: alErase t k

/-- Association-list insert-or-replace (Python `dict` assignment). -/
def alInsert {κ β : Type} [DecidableEq κ] (c : List (κ × β)) (k : κ) (v : β) :
    List (κ × β) :=
  (k, v) :: alErase c k

/-- Python truthiness of an optional string (`None` and `""` are falsy). -/
def truthy : Option String → Bool
  | some s => !(s == "")
  | none => false

/-- Python `a or b` on optional strings (used for claim fallbacks such as
`payload.get("preferred_username") or payload.get("email") or ...`). -/
def pyOr (a b : Option String) : Option String :=
  if truthy a then a else b

/-- Python truthiness of an optional list claim (`None`, absent and `[]`
are falsy). -/
def truthyList : Option (List String) → Bool
  | some l => !l.isEmpty
  | none => false

/-- `str.lower()` restricted to ASCII — executable model of Python's
lower-casing for the email/identifier strings this code handles. -/
def pyCharLower (c : Char) : Char :=
  if 65 ≤ c.toNat ∧ c.toNat ≤ 90 then Char.ofNat (c.toNat + 32) else c

/-- `s.lower()`. -/
def pyLower (s : String) : String := String.mk (s.data.map pyCharLower)

/-- ASCII whitespace as stripped by `str.strip()`. -/
def pyIsSpace (c : Char) : Bool := c = ' ' || c = '\t' || c = '\n' || c = '\r'

/-- `s.strip()`. -/
def pyTrim (s : String) : String :=
  String.mk (((s.data.dropWhile pyIsSpace).reverse.dropWhile pyIsSpace).reverse)

/-- `email.lower().strip()` — the normalisation applied by
`CosmosDB.get_user_by_email` / `CosmosDB.create_user` and by
`get_current_user_entra`. -/
def pyNormalizeEmail (e : String) : String := pyTrim (pyLower e)

/-- `generate_token_hash` (`app/core/dependencies.py` lines 34-39) returns
`sha256(token).hexdigest()`; the hash is modelled by the injective stand-in
that returns the token itself. -/
def generate_token_hash (token : String) : String := token

/-- `AuthenticationCache.__init__` default `ttl_seconds`
(`app/core/dependencies.py` line 113); `get_auth_cache` constructs the
singleton with this default. -/
def AuthenticationCache.ttl_seconds : Nat := 300

/-- `AuthenticationCache.get` (`app/core/dependencies.py` lines 119-133):
a valid entry is returned and left in place, an expired entry is deleted. -/
def AuthenticationCache.get (cache : List (String × ACacheEntry))
    (token_hash : String) (now : Nat) :
    Option UserRec × List (String × ACacheEntry) :=
  match alLookup cache token_hash with
  | some entry =>
      if now - entry.timestamp < AuthenticationCache.ttl_seconds then
        (some entry.user_data, cache)
      else
        (none, alErase cache token_hash)
  | none => (none, cache)

/-- `AuthenticationCache.set` (`app/core/dependencies.py` lines 135-142). -/
def AuthenticationCache.set (cache : List (String × ACacheEntry))
    (token_hash : String) (user_data : UserRec) (now : Nat) :
    List (String × ACacheEntry) :=
  alInsert cache token_hash ⟨user_data, now⟩

/-- `CosmosDB.get_user_by_email` (`app/core/config.py` lines 312-329):
normalises the email, then returns the first auth-container document with
`type = "user"` and that email. -/
def CosmosDB.get_user_by_email (s : Sys) (email : String) : Option UserRec × Sys :=
  let normalized_email := pyNormalizeEmail email
  ((s.store.find? (fun r => decide (r.type = some "user" ∧ r.email = some normalized_email))),
   { s with ops := s.ops ++ [StoreOp.readEmail normalized_email] })

/-- `CosmosDB.get_user_by_entra_oid` (`app/core/config.py` lines 425-440). -/
def CosmosDB.get_user_by_entra_oid (s : Sys) (entra_oid : String) : Option UserRec × Sys :=
  ((s.store.find? (fun r => decide (r.type = some "user" ∧ r.entra_oid = some entra_oid))),
   { s with ops := s.ops ++ [StoreOp.readOid entra_oid] })

/-- Cosmos `auth_container.read_item(id, partition_key=id)`: returns the
document with the given id or raises (modelled `Err.notFound`). -/
def authContainer.read_item (s : Sys) (id : String) : Except Err UserRec × Sys :=
  (match s.store.find? (fun r => decide (r.id = id)) with
   | some u => Except.ok u
   | none => Except.error Err.notFound,
   { s with ops := s.ops ++ [StoreOp.readId id] })

/-- Cosmos `auth_container.replace_item(item, body)`: replaces the document
with the same id in place (callers only replace documents just read). -/
def authContainer.replace_item (s : Sys) (u : UserRec) : Sys :=
  { s with store := s.store.map (fun r => if r.id = u.id then u else r),
           ops := s.ops ++ [StoreOp.replace u.id] }

/-- Cosmos `auth_container.upsert_item(body)`: replaces the document with
the same id if present, otherwise inserts. -/
def authContainer.upsert_item (s : Sys) (u : UserRec) : Sys :=
  { s with store := if s.store.any (fun r => decide (r.id = u.id)) then
                      s.store.map (fun r => if r.id = u.id then u else r)
                    else s.store ++ [u],
           ops := s.ops ++ [StoreOp.upsert u.id] }

/-- Cosmos `auth_container.create_item(body)`: a body without an `id`
(modelled as `""`) is rejected by the service; otherwise inserts, failing
with a Conflict error when a document with the same id already exists. -/
def authContainer.create_item (s : Sys) (u : UserRec) : Except Err UserRec × Sys :=
  if u.id = "" then
    (Except.error (Err.valueError "resource body missing id"), s)
  else if s.store.any (fun r => decide (r.id = u.id)) then
    (Except.error Err.conflict, { s with ops := s.ops ++ [StoreOp.create u.id] })
  else
    (Except.ok u, { s with store := s.store ++ [u], ops := s.ops ++ [StoreOp.create u.id] })

/-- `CosmosDB.create_user` (`app/core/config.py` lines 331-370): normalises
the email, silently returns an already-existing user with the same email or
the same `entra_oid` instead of creating, otherwise fills the hybrid default
fields (`setdefault`) and inserts. The camel-case `displayName` key consulted
by the `display_name` default is never set by any modelled caller, so the
default reduces to the email. -/
def CosmosDB.create_user (s : Sys) (user_data : UserRec) (now : Nat) :
    Except Err UserRec × Sys :=
  let user_data :=
    match user_data.email with
    | some e => if e = "" then user_data else { user_data with email := some (pyNormalizeEmail e) }
    | none => user_data
  let email := user_data.email
  let entra_oid := user_data.entra_oid
  let byEmail : Option UserRec × Sys :=
    if truthy email then CosmosDB.get_user_by_email s (email.getD "") else (none, s)
  match byEmail with
  | (some existing_user, s1) => (Except.ok existing_user, s1)
  | (none, s1) =>
      let byOid : Option UserRec × Sys :=
        if truthy entra_oid then CosmosDB.get_user_by_entra_oid s1 (entra_oid.getD "")
        else (none, s1)
      match byOid with
      | (some existing_user, s2) => (Except.ok existing_user, s2)
      | (none, s2) =>
          let user_data :=
            { user_data with
                type := some "user",
                auth_method := some (user_data.auth_method.getD "legacy"),
                display_name :=
                  match user_data.display_name with
                  | some d => some d
                  | none => user_data.email,
                last_login := some (user_data.last_login.getD now),
                is_active := some (user_data.is_active.getD true),
                created_at := some (user_data.created_at.getD now),
                updated_at := some (user_data.updated_at.getD now) }
          authContainer.create_item s2 user_data

/-- `CosmosDB.update_user(user_id, update_data)` — calling pattern 1
(`app/core/config.py` lines 448-459). The only field dict passed by a
modelled caller is `{"last_login": value}` (`get_current_user_entra`
line 300), so the update is specialised to that shape. -/
def CosmosDB.update_user_fields (s : Sys) (user_id : String) (last_login : Nat)
    (now : Nat) : Except Err UserRec × Sys :=
  match authContainer.read_item s user_id with
  | (Except.error e, s1) => (Except.error e, s1)
  | (Except.ok existing_user, s1) =>
      let existing_user := { existing_user with last_login := some last_login,
                                                updated_at := some now }
      (Except.ok existing_user, authContainer.replace_item s1 existing_user)

/-- `CosmosDB.update_user(user_data)` — calling pattern 2
(`app/core/config.py` lines 460-467): stamps `updated_at` and upserts the
whole document. -/
def CosmosDB.update_user_doc (s : Sys) (user_data : UserRec) (now : Nat) :
    UserRec × Sys :=
  let user_data := { user_data with updated_at := some now }
  (user_data, authContainer.upsert_item s user_data)

/-- `AzureCachedUserService.default_ttl`
(`app/services/cached_user_service.py` line 32). -/
def AzureCachedUserService.default_ttl : Nat := 900

/-- `AzureCachedUserService._get_cache_key` builds
`f"{lookup_type}:{sha256(f"{lookup_type}:{value}")[:16]}"`; the hash is
modelled by the injective stand-in `(lookup_type, value)`. -/
def AzureCachedUserService.cache_key (lookup_type value : String) : String × String :=
  (lookup_type, value)

/-- `AzureCachedUserService.get_user_by_entra_oid`
(`app/services/cached_user_service.py` lines 115-159): valid cache hit is
served as-is (a possible fire-and-forget background refresh does not run
inside the modelled window); on a miss the store is queried and the result —
even `None` — is cached under the oid key with the default TTL. -/
def AzureCachedUserService.get_user_by_entra_oid (s : Sys) (entra_oid : String)
    (now : Nat) : Option UserRec × Sys :=
  let cache_key := AzureCachedUserService.cache_key "entra_oid" entra_oid
  let hit : Option UCacheEntry :=
    match alLookup s.userCache cache_key with
    | some entry => if now - entry.timestamp < entry.ttl then some entry else none
    | none => none
  match hit with
  | some entry => (entry.data, s)
  | none =>
      let (user, s1) := CosmosDB.get_user_by_entra_oid s entra_oid
      let entry : UCacheEntry := ⟨user, now, AzureCachedUserService.default_ttl⟩
      (user, { s1 with userCache := alInsert s1.userCache cache_key entry })

/-- `AzureCachedUserService.get_user_by_email`
(`app/services/cached_user_service.py` lines 161-204): the cache key uses
`email.lower()`, the store fetch passes the raw email (which
`CosmosDB.get_user_by_email` normalises itself). -/
def AzureCachedUserService.get_user_by_email (s : Sys) (email : String)
    (now : Nat) : Option UserRec × Sys :=
  let cache_key := AzureCachedUserService.cache_key "email" (pyLower email)
  let hit : Option UCacheEntry :=
    match alLookup s.userCache cache_key with
    | some entry => if now - entry.timestamp < entry.ttl then some entry else none
    | none => none
  match hit with
  | some entry => (entry.data, s)
  | none =>
      let (user, s1) := CosmosDB.get_user_by_email s email
      let entry : UCacheEntry := ⟨user, now, AzureCachedUserService.default_ttl⟩
      (user, { s1 with userCache := alInsert s1.userCache cache_key entry })

/-- `AzureCachedUserService.get_user_by_id`
(`app/services/cached_user_service.py` lines 206-249). On a cache miss
`_fetch_user_by_id` calls `self.cosmos_db.get_user_by_id`, a method the
`CosmosDB` class does not define, so the fetch raises `AttributeError`
before any store query; the handler at lines 246-249 swallows it and
returns `None` without writing the cache. -/
def AzureCachedUserService.get_user_by_id (s : Sys) (user_id : String)
    (now : Nat) : Option UserRec × Sys :=
  let cache_key := AzureCachedUserService.cache_key "user_id" user_id
  let hit : Option UCacheEntry :=
    match alLookup s.userCache cache_key with
    | some entry => if now - entry.timestamp < entry.ttl then some entry else none
    | none => none
  match hit with
  | some entry => (entry.data, s)
  | none => (none, s)

/-- `AzureCachedUserService.cache_user`
(`app/services/cached_user_service.py` lines 321-349): writes one shared
entry under the id, email (lower-cased) and entra_oid keys, each guarded by
Python truthiness of the corresponding field. -/
def AzureCachedUserService.cache_user (s : Sys) (user_data : UserRec) (now : Nat) :
    Sys :=
  let cache_entry : UCacheEntry := ⟨some user_data, now, AzureCachedUserService.default_ttl⟩
  let c := s.userCache
  let c := if user_data.id ≠ "" then
             alInsert c (AzureCachedUserService.cache_key "user_id" user_data.id) cache_entry
           else c
  let c := if truthy user_data.email then
             alInsert c (AzureCachedUserService.cache_key "email" (pyLower (user_data.email.getD ""))) cache_entry
           else c
  let c := if truthy user_data.entra_oid then
             alInsert c (AzureCachedUserService.cache_key "entra_oid" (user_data.entra_oid.getD "")) cache_entry
           else c
  { s with userCache := c }

/-- `AzureCachedUserService.invalidate_user_cache(identifier, lookup_type)`
(`app/services/cached_user_service.py` lines 305-312): deletes exactly the
one cache key built from its two arguments; no other key is touched. -/
def AzureCachedUserService.invalidate_user_cache (s : Sys)
    (identifier lookup_type : String) : Sys :=
  { s with userCache :=
      alErase s.userCache (AzureCachedUserService.cache_key lookup_type identifier) }

/-- Cosmos SQL `CONTAINS(haystack, needle)` for the non-empty needles that
`list_users` passes: true iff the needle occurs in the haystack. -/
def sqlContains (haystack needle : String) : Bool :=
  (haystack.splitOn needle).length > 1

/-- `UserManagementService.get_user`
(`app/services/user_management_service.py` lines 14-21): reads the document
by id, strips `hashed_password`, and returns `None` when the read raises. -/
def UserManagementService.get_user (s : Sys) (user_id : String) :
    Option UserRec × Sys :=
  match authContainer.read_item s user_id with
  | (Except.ok user, s1) => (some { user with hashed_password := none }, s1)
  | (Except.error _, s1) => (none, s1)

/-- `UserManagementService.list_users`
(`app/services/user_management_service.py` lines 58-76): SQL query over the
auth container — `type = 'user'`, optional email-substring / role /
auth_method filters (each added only when the argument is truthy), then
`OFFSET skip LIMIT limit` — with `hashed_password` popped from every result. -/
def UserManagementService.list_users (s : Sys) (filter role auth_method : String)
    (skip limit : Nat) : List UserRec :=
  let q := s.store.filter (fun r => decide (r.type = some "user"))
  let q := if filter = "" then q else
    q.filter (fun r => match r.email with
                       | some e => sqlContains e filter
                       | none => false)
  let q := if role = "" then q else q.filter (fun r => decide (r.role = some role))
  let q := if auth_method = "" then q else
    q.filter (fun r => decide (r.auth_method = some auth_method))
  let q := (q.drop skip).take limit
  q.map (fun u => { u with hashed_password := none })

/-- `UserManagementService.create_user`
(`app/services/user_management_service.py` lines 29-43): fills hybrid
defaults (`setdefault`), including `role`/`roles` derived from the provided
role or `"standard"`, then delegates to `CosmosDB.create_user`. The
camel-case `displayName` key is never set by modelled callers. -/
def UserManagementService.create_user (s : Sys) (user_data : UserRec) (now : Nat) :
    Except Err UserRec × Sys :=
  let default_role := user_data.role.getD "standard"
  let user_data :=
    { user_data with
        type := some (user_data.type.getD "user"),
        created_at := some (user_data.created_at.getD now),
        updated_at := some (user_data.updated_at.getD now),
        auth_method := some (user_data.auth_method.getD "legacy"),
        display_name :=
          match user_data.display_name with
          | some d => some d
          | none => user_data.email,
        last_login := some (user_data.last_login.getD now),
        is_active := some (user_data.is_active.getD true),
        role := some default_role,
        roles := some (user_data.roles.getD [default_role]) }
  CosmosDB.create_user s user_data now

/-- JWKS cache of `AzureOptimizedEntraAuthService` (`app/services/entra_auth.py`
lines 24-26): the cached key set is its list of key ids (`none` models the
initial empty dict `{}`, which is falsy); `fetch_count` instruments how many
HTTP GETs against the JWKS endpoint have been attempted. -/
structure EntraJwksState where
  jwks_cache : Option (List String)
  jwks_cache_timestamp : Nat
  fetch_count : Nat
  deriving Repr, DecidableEq

/-- `jwks_cache_ttl` (`app/services/entra_auth.py` line 24): one hour. -/
def jwks_cache_ttl : Nat := 3600

/-- `AzureOptimizedEntraAuthService._fetch_jwks_with_cache`
(`app/services/entra_auth.py` lines 44-88). `provider` is what one HTTP GET
of the key endpoint would yield (`none` = `RequestException`). A valid cache
is served without fetching; otherwise one fetch is attempted (the
double-checked re-check under the lock repeats the same condition and is a
no-op in the sequential model); a failed fetch falls back to a stale cached
set if one exists and otherwise raises 503. -/
def AzureOptimizedEntraAuthService.fetch_jwks_with_cache
    (provider : Option (List String)) (now : Nat) (st : EntraJwksState) :
    Except Err (List String) × EntraJwksState :=
  if st.jwks_cache.isSome ∧ now - st.jwks_cache_timestamp < jwks_cache_ttl then
    (Except.ok (st.jwks_cache.getD []), st)
  else
    let st := { st with fetch_count := st.fetch_count + 1 }
    match provider with
    | some jwks_data =>
        (Except.ok jwks_data,
         { st with jwks_cache := some jwks_data, jwks_cache_timestamp := now })
    | none =>
        match st.jwks_cache with
        | some stale => (Except.ok stale, st)
        | none => (Except.error (Err.http 503 "Unable to fetch JWKS from Azure"), st)

/-- The key-resolution prefix of `AzureOptimizedEntraAuthService.verify_token`
(`app/services/entra_auth.py` lines 107-141): missing `kid` raises 401; on a
key id absent from the fetched set the cache timestamp is reset to 0 and the
set fetched once more; a key id still absent raises 401 `Unable to find
appropriate key ...`. Signature/claim validation below line 141 is outside
the modelled scope. -/
def AzureOptimizedEntraAuthService.verify_token_key_resolution
    (provider : Option (List String)) (kid : Option String) (now : Nat)
    (st : EntraJwksState) : Except Err String × EntraJwksState :=
  match kid with
  | none => (Except.error (Err.http 401 "Token missing 'kid' in header"), st)
  | some kid =>
      match AzureOptimizedEntraAuthService.fetch_jwks_with_cache provider now st with
      | (Except.error e, st1) => (Except.error e, st1)
      | (Except.ok jwks, st1) =>
          if kid ∈ jwks then (Except.ok kid, st1)
          else
            let st2 := { st1 with jwks_cache_timestamp := 0 }
            match AzureOptimizedEntraAuthService.fetch_jwks_with_cache provider now st2 with
            | (Except.error e, st3) => (Except.error e, st3)
            | (Except.ok jwks2, st3) =>
                if kid ∈ jwks2 then (Except.ok kid, st3)
                else
                  (Except.error
                     (Err.http 401 "Unable to find appropriate key for token validation"),
                   st3)

/-- What a caller of `verify_token` observes of the key-resolution prefix:
the `try` block spanning lines 104-165 ends in `except Exception` (lines
190-195), and a `fastapi.HTTPException` matches none of the earlier
`jwt.*Error` clauses, so every error raised above — including the deliberate
401s and the 503 — is converted to
`HTTPException(500, "Internal authentication error")`. -/
def AzureOptimizedEntraAuthService.verify_token_key_resolution_observed
    (provider : Option (List String)) (kid : Option String) (now : Nat)
    (st : EntraJwksState) : Except Err String × EntraJwksState :=
  match AzureOptimizedEntraAuthService.verify_token_key_resolution provider kid now st with
  | (Except.error _, st1) => (Except.error (Err.http 500 "Internal authentication error"), st1)
  | ok => ok

/-- `get_or_create_entra_user` (`app/routers/auth.py` lines 93-176). The
per-identifier `asyncio.Lock` obtained via `get_or_create_user_lock`
serialises this critical section, so the body is modelled as one atomic
sequential execution; the delayed lock cleanup task does not run inside the
modelled window. -/
def get_or_create_entra_user (s : Sys) (email entra_oid : String)
    (roles : List String) (now : Nat) : Except Err UserRec × Sys :=
  match CosmosDB.get_user_by_email s email with
  | (some existing_user, s1) =>
      if !truthy existing_user.entra_oid && entra_oid ≠ "" then
        let existing_user := { existing_user with
            entra_oid := some entra_oid,
            auth_method := some "entra",
            updated_at := some now }
        (Except.ok existing_user, authContainer.replace_item s1 existing_user)
      else (Except.ok existing_user, s1)
  | (none, s1) =>
      let byOid : Option UserRec × Sys :=
        if entra_oid ≠ "" then CosmosDB.get_user_by_entra_oid s1 entra_oid else (none, s1)
      match byOid with
      | (some existing_user, s2) =>
          if pyLower (existing_user.email.getD "") ≠ pyLower email then
            let existing_user := { existing_user with
                email := some (pyNormalizeEmail email),
                updated_at := some now }
            (Except.ok existing_user, authContainer.replace_item s2 existing_user)
          else (Except.ok existing_user, s2)
      | (none, s2) =>
          let user_data : UserRec :=
            { id := "user_" ++ toString (1000 * now),
              type := some "user",
              email := some (pyNormalizeEmail email),
              entra_oid := some entra_oid,
              roles := some (if roles.isEmpty then ["standard"] else roles),
              role := some (roles.headD "standard"),
              auth_method := some "entra",
              auth_type := some "entra",
              display_name := some (pyNormalizeEmail email),
              is_active := some true,
              created_at := some now,
              updated_at := some now }
          match CosmosDB.create_user s2 user_data now with
          | (Except.ok created_user, s3) =>
              (Except.ok created_user, AzureCachedUserService.cache_user s3 created_user now)
          | (Except.error create_error, s3) =>
              match CosmosDB.get_user_by_email s3 email with
              | (some existing_user, s4) => (Except.ok existing_user, s4)
              | (none, s4) => (Except.error create_error, s4)

/-- The email-claim fallback chain used by every resolver:
`payload.get("preferred_username") or payload.get("email") or
payload.get("upn") or payload.get("unique_name")`. -/
def claimEmail (payload : Claims) : Option String :=
  pyOr payload.preferred_username (pyOr payload.email (pyOr payload.upn payload.unique_name))

/-- `app_id = payload.get("appid") or payload.get("azp")`. -/
def claimAppId (payload : Claims) : Option String :=
  pyOr payload.appid payload.azp

/-- `is_app_only = bool(app_id) and (appidacr == "1" or (roles and not scp))`
with `appidacr = str(payload.get("appidacr", "")).strip()`; the truthiness
of the local `roles` value differs per caller and is passed in. -/
def isAppOnly (payload : Claims) (rolesTruthy : Bool) : Bool :=
  truthy (claimAppId payload) &&
    (pyTrim (payload.appidacr.getD "") == "1" || (rolesTruthy && !truthy payload.scp))

/-- The `try` body of `get_current_user_entra` (`app/routers/auth.py` lines
244-341). `ver` is the outcome of `entra_auth.verify_token(token)`. The line
335 call `await cached_user_service.invalidate_user_cache(user_id=...,
email=..., entra_oid=...)` binds keyword arguments that the method signature
`invalidate_user_cache(self, identifier, lookup_type)` does not accept, so
it raises `TypeError` after the migration upsert has already been issued. -/
def get_current_user_entra_body (ver : Except Err Claims) (s : Sys) (now : Nat) :
    Except Err UserRec × Sys :=
  match ver with
  | Except.error e => (Except.error e, s)
  | Except.ok payload =>
      let email := claimEmail payload
      let email := if truthy email then email.map pyNormalizeEmail else email
      let entra_oid := payload.oid
      let roles := payload.roles.getD []
      if !(truthy email && truthy entra_oid) then
        let app_id := claimAppId payload
        if isAppOnly payload (!roles.isEmpty) then
          (Except.ok
             { id := "app_" ++ app_id.getD "",
               email := none,
               entra_oid := none,
               roles := some roles,
               auth_type := some "entra_app",
               display_name := some ("app:" ++ app_id.getD ""),
               is_active := some true }, s)
        else
          (Except.error (Err.valueError "Missing email or Entra OID in token claims."), s)
      else
        match AzureCachedUserService.get_user_by_entra_oid s (entra_oid.getD "") now with
        | (some user, s1) =>
            let user := { user with auth_type := some "entra", last_login := some now }
            let user := if !truthyList user.roles then { user with roles := some ["standard"] }
                        else user
            let s2 :=
              match CosmosDB.update_user_fields s1 user.id now now with
              | (Except.ok _, s2) =>
                  let s2 := AzureCachedUserService.invalidate_user_cache s2
                              (entra_oid.getD "") "entra_oid"
                  if truthy user.email then
                    AzureCachedUserService.invalidate_user_cache s2 (user.email.getD "") "email"
                  else s2
              | (Except.error _, s2) => s2
            (Except.ok user, s2)
        | (none, s1) =>
            match AzureCachedUserService.get_user_by_email s1 (email.getD "") now with
            | (some user, s2) =>
                let user := { user with entra_oid := some (entra_oid.getD "") }
                let user :=
                  if !roles.isEmpty then { user with roles := some roles }
                  else if !truthyList user.roles then { user with roles := some ["standard"] }
                  else user
                let (_, s3) := CosmosDB.update_user_doc s2 user now
                (Except.error
                   (Err.typeError "invalidate_user_cache() got an unexpected keyword argument"),
                 s3)
            | (none, s2) =>
                get_or_create_entra_user s2 (email.getD "") (entra_oid.getD "") roles now

/-- `get_current_user_entra` (`app/routers/auth.py` lines 233-344): the
whole body is wrapped in `except Exception`, which converts every failure —
including the `TypeError` of the migration path — into
`HTTPException(401, "Invalid Entra ID token or user migration error: ...")`. -/
def get_current_user_entra (ver : Except Err Claims) (s : Sys) (now : Nat) :
    Except Err UserRec × Sys :=
  match get_current_user_entra_body ver s now with
  | (Except.error _, s1) =>
      (Except.error (Err.http 401 "Invalid Entra ID token or user migration error"), s1)
  | ok => ok

/-- The `try` body of the Entra branch of `get_current_user_cached`
(`app/routers/auth.py` lines 735-815). `roles` here is
`payload.get("roles", None)`. The not-found branch raises
`HTTPException(500, ...)` when user creation fails; it is caught by the same
outer handler as every other error of this branch. -/
def get_current_user_cached_entra (ver : Except Err Claims) (s : Sys) (now : Nat) :
    Except Err UserRec × Sys :=
  match ver with
  | Except.error e => (Except.error e, s)
  | Except.ok payload =>
      let entra_oid := payload.oid
      let email := claimEmail payload
      let roles := payload.roles
      if !(truthy email && truthy entra_oid) then
        let app_id := claimAppId payload
        if isAppOnly payload (truthyList roles) then
          (Except.ok
             { id := "app_" ++ app_id.getD "",
               email := none,
               entra_oid := none,
               roles := some (roles.getD []),
               auth_type := some "entra_app",
               display_name := some ("app:" ++ app_id.getD ""),
               is_active := some true }, s)
        else
          (Except.error (Err.valueError "Missing email or Entra OID in token claims."), s)
      else
        let (found, s2) :=
          match AzureCachedUserService.get_user_by_entra_oid s (entra_oid.getD "") now with
          | (some u, s1) => (some u, s1)
          | (none, s1) => AzureCachedUserService.get_user_by_email s1 (email.getD "") now
        match found with
        | some user =>
            let user := { user with auth_type := some "entra",
                                    entra_oid := some (entra_oid.getD "") }
            let user :=
              match roles with
              | some rs => if !rs.isEmpty then { user with roles := some rs } else user
              | none => user
            let user :=
              if !truthyList user.roles then
                { user with roles := some [user.role.getD "standard"] }
              else user
            (Except.ok user, s2)
        | none =>
            match get_or_create_entra_user s2 (email.getD "") (entra_oid.getD "")
                    (if truthyList roles then roles.getD [] else ["standard"]) now with
            | (Except.ok user_data, s3) =>
                (Except.ok { user_data with auth_type := some "entra" }, s3)
            | (Except.error _, s3) =>
                (Except.error (Err.http 500 "Failed to create user account"), s3)

/-- The legacy-JWT branch of `get_current_user_cached`
(`app/routers/auth.py` lines 821-861). `leg` is the outcome of
`jwt.decode(token, jwt_secret_key, ...)`: `none` for an invalid token,
`some sub` for a payload whose `sub` claim is `sub`. Every failure of this
branch — bad token, missing subject, unknown user — is converted by the
handler at lines 856-861 to `HTTPException(401, "Invalid authentication
token")`. -/
def get_current_user_cached_legacy (leg : Option (Option String)) (s : Sys) (now : Nat) :
    Except Err UserRec × Sys :=
  match leg with
  | none => (Except.error (Err.http 401 "Invalid authentication token"), s)
  | some subClaim =>
      if !truthy subClaim then
        (Except.error (Err.http 401 "Invalid authentication token"), s)
      else
        match AzureCachedUserService.get_user_by_email s (subClaim.getD "") now with
        | (some user, s1) =>
            let user := { user with auth_type := some "legacy" }
            let current_role := if truthy user.role then user.role.getD "" else "standard"
            let user := { user with role := some current_role, roles := some [current_role] }
            (Except.ok user, s1)
        | (none, s1) => (Except.error (Err.http 401 "Invalid authentication token"), s1)

/-- `get_current_user_cached` (`app/routers/auth.py` lines 708-861): tries
the Entra branch; any of its failures (the `except` at line 817 does a bare
`pass`) falls through to the legacy-JWT branch. This function never touches
the `AuthenticationCache`. Since line 1439 it is also what the module-level
name `get_current_user_any` refers to. -/
def get_current_user_cached (ver : Except Err Claims) (leg : Option (Option String))
    (s : Sys) (now : Nat) : Except Err UserRec × Sys :=
  match get_current_user_cached_entra ver s now with
  | (Except.ok user, s1) => (Except.ok user, s1)
  | (Except.error _, s1) => get_current_user_cached_legacy leg s1 now

/-- The `try` body of the Entra branch of `get_me`
(`app/routers/auth.py` lines 562-671), with the `audit_login` query flag.
`roles` is `payload.get("roles", [])`; the found / auto-created user's
`roles` field is overwritten with it unconditionally at line 635. The
auto-create path builds a dict without an `id`, so
`UserManagementService.create_user` fails at the Cosmos insert and the
temporary dict is returned instead; in the audit block the call
`user_mgmt_service.update_user(user.get("id"), {...})` passes two arguments
to a one-parameter method, so the `last_login` store write always fails and
is swallowed by the inner handler. The helper key `_debug_timestamp` and the
audit-container write are outside the modelled state. -/
def get_me_entra_body (ver : Except Err Claims) (audit_login : Bool) (s : Sys)
    (now : Nat) : Except Err UserRec × Sys :=
  match ver with
  | Except.error e => (Except.error e, s)
  | Except.ok payload =>
      let email := claimEmail payload
      let entra_oid := payload.oid
      let roles := payload.roles.getD []
      if !(truthy email && truthy entra_oid) then
        let app_id := claimAppId payload
        let is_app_only := truthy app_id && !truthy payload.scp && !truthy payload.oid
        if is_app_only then
          (Except.ok
             { id := "app_" ++ app_id.getD "",
               auth_type := some "entra_app",
               roles := some roles,
               display_name := some ("app:" ++ app_id.getD ""),
               is_active := some true }, s)
        else
          (Except.error (Err.valueError "Missing email or Entra OID in token claims."), s)
      else
        let (found, s2) :=
          match AzureCachedUserService.get_user_by_entra_oid s (entra_oid.getD "") now with
          | (some u, s1) => (some u, s1)
          | (none, s1) => AzureCachedUserService.get_user_by_email s1 (email.getD "") now
        let (user, s3) :=
          match found with
          | some u => (u, s2)
          | none =>
              let nm := pyTrim (match payload.name with
                         | some n =>
                             if n = "" then
                               payload.given_name.getD "" ++ " " ++ payload.family_name.getD ""
                             else n
                         | none =>
                             payload.given_name.getD "" ++ " " ++ payload.family_name.getD "")
              let new_user : UserRec :=
                { id := "",
                  email := email,
                  name := some nm,
                  role := some "standard",
                  entra_oid := some (entra_oid.getD ""),
                  auth_type := some "entra",
                  roles := some ["standard"],
                  created_via := some "auto_entra_auth",
                  created_at := some now }
              match UserManagementService.create_user s2
                      { id := "", email := email, name := some nm, role := some "standard" }
                      now with
              | (Except.ok created_user, s3) =>
                  ({ created_user with auth_type := some "entra",
                                       entra_oid := some (entra_oid.getD ""),
                                       roles := some [created_user.role.getD "standard"] }, s3)
              | (Except.error _, s3) => (new_user, s3)
        let user := { user with auth_type := some "entra",
                                entra_oid := some (entra_oid.getD ""),
                                roles := some roles }
        if audit_login then
          let should_log_login :=
            match user.last_login with
            | some t => decide (43200 ≤ now - t)
            | none => true
          if should_log_login then
            (Except.ok { user with last_login := some now }, s3)
          else (Except.ok user, s3)
        else (Except.ok user, s3)

/-- The legacy-JWT branch of `get_me` (`app/routers/auth.py` lines 676-704);
as in `get_current_user_cached`, every failure surfaces as
`HTTPException(401, "Invalid authentication token")` via the handler at
lines 703-704. -/
def get_me_legacy (leg : Option (Option String)) (s : Sys) (now : Nat) :
    Except Err UserRec × Sys :=
  match leg with
  | none => (Except.error (Err.http 401 "Invalid authentication token"), s)
  | some subClaim =>
      if !truthy subClaim then
        (Except.error (Err.http 401 "Invalid authentication token"), s)
      else
        match AzureCachedUserService.get_user_by_email s (subClaim.getD "") now with
        | (some user, s1) =>
            let user := { user with auth_type := some "legacy" }
            let current_role := if truthy user.role then user.role.getD "" else "standard"
            let user := { user with role := some current_role, roles := some [current_role] }
            (Except.ok user, s1)
        | (none, s1) => (Except.error (Err.http 401 "Invalid authentication token"), s1)

/-- `get_me` (`app/routers/auth.py` lines 537-704): the Entra branch,
falling through to the legacy branch on any Entra-side failure (the
`except ...: pass` at lines 672-673). -/
def get_me (ver : Except Err Claims) (leg : Option (Option String))
    (audit_login : Bool) (s : Sys) (now : Nat) : Except Err UserRec × Sys :=
  match get_me_entra_body ver audit_login s now with
  | (Except.ok user, s1) => (Except.ok user, s1)
  | (Except.error _, s1) => get_me_legacy leg s1 now

/-- `AppConfig.auth_config` as seen by `get_current_user_any`:
`is_entra_enabled()` (combined with the presence of the Entra service
singleton) and `is_legacy_enabled()`. -/
structure AuthCfg where
  entraEnabled : Bool
  legacyEnabled : Bool
  deriving Repr, DecidableEq

/-- The `try` body of the Entra branch of the original `get_current_user_any`
(`app/routers/auth.py` lines 896-969). `roles` is `payload.get("roles", [])`.
Lookups go straight to `CosmosDB`; a found user is migrated (oid attached,
roles merged only when the token's roles claim is non-empty) and upserted;
each success is written to the `AuthenticationCache` under the token hash
before returning. In the not-found branch the code builds a throwaway
`AzureCachedUserService(config)` instance, so the `cache_user` write inside
`get_or_create_entra_user` lands in a cache that is immediately discarded —
modelled by restoring `userCache` after the call. -/
def get_current_user_any_entra (ver : Except Err Claims) (token_hash : String)
    (s : Sys) (now : Nat) : Except Err UserRec × Sys :=
  match ver with
  | Except.error e => (Except.error e, s)
  | Except.ok payload =>
      let entra_oid := payload.oid
      let email := claimEmail payload
      let roles := payload.roles.getD []
      if !(truthy email && truthy entra_oid) then
        let app_id := claimAppId payload
        if isAppOnly payload (!roles.isEmpty) then
          let app_identity : UserRec :=
            { id := "app_" ++ app_id.getD "",
              email := none,
              entra_oid := none,
              roles := some roles,
              auth_type := some "entra_app",
              display_name := some ("app:" ++ app_id.getD ""),
              is_active := some true }
          (Except.ok app_identity,
           { s with authCache := AuthenticationCache.set s.authCache token_hash app_identity now })
        else
          (Except.error (Err.valueError "Missing email or Entra OID in token claims."), s)
      else
        let (found, s2) :=
          match CosmosDB.get_user_by_entra_oid s (entra_oid.getD "") with
          | (some u, s1) => (some u, s1)
          | (none, s1) => CosmosDB.get_user_by_email s1 (email.getD "")
        match found with
        | some user =>
            let user := { user with entra_oid := some (entra_oid.getD "") }
            let user :=
              if !roles.isEmpty then { user with roles := some roles }
              else if !truthyList user.roles then { user with roles := some ["standard"] }
              else user
            let (user, s3) := CosmosDB.update_user_doc s2 user now
            let user := { user with auth_type := some "entra" }
            (Except.ok user,
             { s3 with authCache := AuthenticationCache.set s3.authCache token_hash user now })
        | none =>
            match get_or_create_entra_user s2 (email.getD "") (entra_oid.getD "") roles now with
            | (Except.ok user_data, s3) =>
                let s3 := { s3 with userCache := s2.userCache }
                let user_data := { user_data with auth_type := some "entra" }
                (Except.ok user_data,
                 { s3 with authCache := AuthenticationCache.set s3.authCache token_hash user_data now })
            | (Except.error e, s3) =>
                let s3 := { s3 with userCache := s2.userCache }
                (Except.error e, s3)

/-- The legacy-JWT branch of the original `get_current_user_any`
(`app/routers/auth.py` lines 977-1012): direct `CosmosDB` lookup, success
cached in the `AuthenticationCache`; all failure details are aggregated into
the final `HTTPException(401, ...)`, modelled by the constant detail
`"Authentication failed"`. -/
def get_current_user_any_legacy (leg : Option (Option String)) (token_hash : String)
    (s : Sys) (now : Nat) : Except Err UserRec × Sys :=
  match leg with
  | none => (Except.error (Err.http 401 "Authentication failed"), s)
  | some subClaim =>
      if !truthy subClaim then
        (Except.error (Err.http 401 "Authentication failed"), s)
      else
        match CosmosDB.get_user_by_email s (subClaim.getD "") with
        | (some user, s1) =>
            let user := { user with auth_type := some "legacy" }
            (Except.ok user,
             { s1 with authCache := AuthenticationCache.set s1.authCache token_hash user now })
        | (none, s1) => (Except.error (Err.http 401 "Authentication failed"), s1)

/-- The original `get_current_user_any` (`app/routers/auth.py` lines
866-1012): hash the token, serve a valid `AuthenticationCache` entry
directly; otherwise run the Entra branch (when enabled), falling through to
the legacy branch (when enabled) on failure, with
`HTTPException(401, "Entra ID authentication failed")` when Entra fails and
legacy is disabled. (Line 1439 later rebinds the module-level *name* to
`get_current_user_cached`; the admin routes defined at lines 1015-1178
captured this original function.) -/
def get_current_user_any (cfg : AuthCfg) (ver : Except Err Claims)
    (leg : Option (Option String)) (token : String) (s : Sys) (now : Nat) :
    Except Err UserRec × Sys :=
  let token_hash := generate_token_hash token
  match AuthenticationCache.get s.authCache token_hash now with
  | (some cached_user, c1) => (Except.ok cached_user, { s with authCache := c1 })
  | (none, c1) =>
      let s := { s with authCache := c1 }
      if cfg.entraEnabled then
        match get_current_user_any_entra ver token_hash s now with
        | (Except.ok user, s1) => (Except.ok user, s1)
        | (Except.error _, s1) =>
            if cfg.legacyEnabled then get_current_user_any_legacy leg token_hash s1 now
            else (Except.error (Err.http 401 "Entra ID authentication failed"), s1)
      else
        if cfg.legacyEnabled then get_current_user_any_legacy leg token_hash s now
        else (Except.error (Err.http 401 "Authentication failed"), s)

/-- Sequential execution of `n` calls of the `get_or_create_entra_user`
critical section for one identifier (the per-identifier lock serialises
them), at the given call times. -/
def run_get_or_create_entra_user (email entra_oid : String) (roles : List String) :
    List Nat → Sys → List (Except Err UserRec) × Sys
  | [], s => ([], s)
  | t :: ts, s =>
      let (r, s1) := get_or_create_entra_user s email entra_oid roles t
      let (rs, s2) := run_get_or_create_entra_user email entra_oid roles ts s1
      (r :: rs, s2)

/-- Number of user-store create calls in an effect log. -/
def createCount (l : List StoreOp) : Nat :=
  (l.filter (fun op => match op with | StoreOp.create _ => true | _ => false)).length

/-- The user document that the create branch of `get_or_create_entra_user`
writes (lines 136-150 of `app/routers/auth.py`, with the `setdefault`
fields added by `CosmosDB.create_user`), for an already-normalised email. -/
def created_entra_user (email entra_oid : String) (roles : List String) (now : Nat) :
    UserRec :=
  { id := "user_" ++ toString (1000 * now),
    type := some "user",
    email := some email,
    entra_oid := some entra_oid,
    roles := some (if roles.isEmpty then ["standard"] else roles),
    role := some (roles.headD "standard"),
    auth_method := some "entra",
    auth_type := some "entra",
    display_name := some email,
    is_active := some true,
    created_at := some now,
    updated_at := some now,
    last_login := some now }

/-! Association-list facts used throughout the proofs below. -/

theorem alLookup_insert_same {κ β : Type} [DecidableEq κ]
    (c : List (κ × β)) (k : κ) (v : β) : alLookup (alInsert c k v) k = some v := by
  simp [alLookup, alInsert]

theorem alLookup_erase_ne {κ β : Type} [DecidableEq κ]
    (c : List (κ × β)) (k k' : κ) (h : k' ≠ k) :
    alLookup (alErase c k) k' = alLookup c k' := by
  induction c with
  | nil => rfl
  | cons p t ih =>
    by_cases hp : p.1 = k
    · have hp' : ¬ p.1 = k' := fun hh => h (hh.symm.trans hp)
      simp [alErase, alLookup, hp, hp', ih, h, Ne.symm h]
    · by_cases hq : p.1 = k'
      · simp [alErase, alLookup, hp, hq, h, Ne.symm h]
      · simp [alErase, alLookup, hp, hq, ih, h, Ne.symm h]

theorem alLookup_erase_same {κ β : Type} [DecidableEq κ]
    (c : List (κ × β)) (k : κ) : alLookup (alErase c k) k = none := by
  induction c with
  | nil => rfl
  | cons p t ih =>
    by_cases hp : p.1 = k
    · simp [alErase, hp, ih]
    · simp [alErase, alLookup, hp, ih]

theorem alLookup_insert_ne {κ β : Type} [DecidableEq κ]
    (c : List (κ × β)) (k k' : κ) (v : β) (h : k' ≠ k) :
    alLookup (alInsert c k v) k' = alLookup c k' := by
  simp [alLookup, alInsert, h, Ne.symm h, alLookup_erase_ne c k k' h]


/-- Claim C10: `UserManagementService.get_user` returns the stored record
with the `hashed_password` field removed (or `None` when the read fails),
and `UserManagementService.list_users` removes `hashed_password` from every
record it returns; no record returned by these operations carries a
`hashed_password`. -/
theorem c10_user_management_strips_hashed_password :
    (∀ (s : Sys) (user_id : String) (u : UserRec),
        (UserManagementService.get_user s user_id).1 = some u → u.hashed_password = none) ∧
    (∀ (s : Sys) (filt role auth_method : String) (skip limit : Nat) (u : UserRec),
        u ∈ UserManagementService.list_users s filt role auth_method skip limit →
        u.hashed_password = none) := by
  constructor
  · intro s user_id u h
    simp only [UserManagementService.get_user, authContainer.read_item] at h
    cases hf : s.store.find? (fun r => decide (r.id = user_id)) with
    | none => rw [hf] at h; simp at h
    | some w =>
        rw [hf] at h
        simp at h
        rw [← h]
  · intro s filt role auth_method skip limit u h
    simp only [UserManagementService.list_users, List.mem_map] at h
    obtain ⟨w, _, rfl⟩ := h
    rfl

/-- Witness for C10 at a concrete store: a record stored with a password
hash comes back from both operations with the field absent. -/
theorem c10_user_management_strips_hashed_password_witness :
    ({ id := "user_1", type := some "user", email := some "a@b.com",
       role := some "standard", hashed_password := none : UserRec}).hashed_password = none ∧
    ({ id := "user_1", type := some "user", email := some "a@b.com",
       role := some "standard", hashed_password := none : UserRec}).hashed_password = none :=
  ⟨c10_user_management_strips_hashed_password.1
      ⟨[{ id := "user_1", type := some "user", email := some "a@b.com",
          role := some "standard", hashed_password := some "bcrypt-hash" }], [], [], []⟩
      "user_1" _ (by decide),
   c10_user_management_strips_hashed_password.2
      ⟨[{ id := "user_1", type := some "user", email := some "a@b.com",
          role := some "standard", hashed_password := some "bcrypt-hash" }], [], [], []⟩
      "" "" "" 0 10 _ (by decide)⟩

/-- Claim C7: a token whose `kid` is absent from the cached JWKS triggers
exactly one forced refetch (timestamp reset to 0, then one fetch), and no
second refetch happens; but the resulting failure is not the
401 `Unable to find appropriate key` the claim describes: the inner 401 is
an `HTTPException`, which the function's own `except Exception` handler at
`app/services/entra_auth.py` lines 190-195 swallows and replaces with
`HTTPException(500, "Internal authentication error")`. Evaluated at a
concrete state: cache holds only `k1` (still valid), the provider also
serves only `k1`, and the token asks for `k2`. -/
theorem c7_unknown_kid_one_forced_refetch_then_500 :
    AzureOptimizedEntraAuthService.verify_token_key_resolution_observed
        (some ["k1"]) (some "k2") 5000 ⟨some ["k1"], 4000, 0⟩ =
      (Except.error (Err.http 500 "Internal authentication error"),
       ⟨some ["k1"], 5000, 1⟩) ∧
    (AzureOptimizedEntraAuthService.verify_token_key_resolution
        (some ["k1"]) (some "k2") 5000 ⟨some ["k1"], 4000, 0⟩).1 =
      Except.error (Err.http 401 "Unable to find appropriate key for token validation") := by
  constructor
  · rfl
  · rfl

/-- The existing stored user for the C8 scenario. -/
def c8_existing_user : UserRec :=
  { id := "user_1", type := some "user", email := some "a@b.com",
    entra_oid := some "oid1", roles := some ["standard"], role := some "standard" }

/-- Counterexample to claim C8: `CosmosDB.create_user` with fields whose
email equals that of an already-stored record does **not** fail with a
Conflict error — it silently succeeds, returning the existing record
unchanged (one email lookup, no create call, store untouched). -/
theorem c8_counterexample_create_silently_returns_existing :
    CosmosDB.create_user ⟨[c8_existing_user], [], [], []⟩
        { id := "user_99", type := some "user", email := some "a@b.com",
          entra_oid := some "oid99" } 7 =
      (Except.ok c8_existing_user,
       ⟨[c8_existing_user], [], [], [StoreOp.readEmail "a@b.com"]⟩) := by
  rfl

/-- Claim C8 as amended: when a stored user record already has the (already
normalised, non-empty) email of the fields passed to
`CosmosDB.create_user`, the operation silently returns that existing record:
the result is `ok existing`, the store is unchanged, and the only store
round trip is the email lookup — no create call is issued and no Conflict
error is raised. (Only the final `create_item` insert itself can fail, e.g.
on a duplicate id.) -/
theorem c8_amended_create_user_dedupes_by_email (s : Sys) (d : UserRec) (e : String)
    (u : UserRec) (now : Nat)
    (he : d.email = some e) (hne : e ≠ "") (hnorm : pyNormalizeEmail e = e)
    (hfind : s.store.find?
        (fun r => decide (r.type = some "user") && decide (r.email = some e)) = some u) :
    CosmosDB.create_user s d now =
      (Except.ok u, { s with ops := s.ops ++ [StoreOp.readEmail e] }) := by
  simp only [CosmosDB.create_user, CosmosDB.get_user_by_email, he]
  simp [hnorm, hne, hfind, truthy]

/-- Witness for C8-as-amended at the concrete C8 store. -/
theorem c8_amended_create_user_dedupes_by_email_witness :
    CosmosDB.create_user ⟨[c8_existing_user], [], [], []⟩
        { id := "user_99", type := some "user", email := some "a@b.com",
          entra_oid := some "oid99" } 7 =
      (Except.ok c8_existing_user,
       { Sys.mk [c8_existing_user] [] [] [] with
           ops := [] ++ [StoreOp.readEmail "a@b.com"] }) :=
  c8_amended_create_user_dedupes_by_email
    ⟨[c8_existing_user], [], [], []⟩
    { id := "user_99", type := some "user", email := some "a@b.com",
      entra_oid := some "oid99" }
    "a@b.com" c8_existing_user 7 rfl (by decide) (by decide) (by decide)

/-- The identity cached in the C9 scenario. -/
def c9_user : UserRec :=
  { id := "u1", type := some "user", email := some "a@b.com",
    entra_oid := some "oid1", roles := some ["standard"] }

/-- The cache state of the C9 counterexample: `cache_user` on an empty
state, then `invalidate_user_cache` under the email key only. -/
def c9_state : Sys :=
  AzureCachedUserService.invalidate_user_cache
    (AzureCachedUserService.cache_user ⟨[], [], [], []⟩ c9_user 100) "a@b.com" "email"

/-- Counterexample to claim C9: after `cache_user(identity)` and
`invalidate_user_cache` under the single email key, the cache is **not**
consistent — the entra_oid and id keys still serve the invalidated
identity, purely from cache (the store is empty and no store op is
issued). -/
theorem c9_counterexample_single_key_invalidate_leaves_other_keys :
    (AzureCachedUserService.get_user_by_entra_oid c9_state "oid1" 100).1 = some c9_user ∧
    (AzureCachedUserService.get_user_by_id c9_state "u1" 100).1 = some c9_user ∧
    (AzureCachedUserService.get_user_by_entra_oid c9_state "oid1" 100).2.ops = [] ∧
    c9_state.store = [] := ⟨rfl, rfl, rfl, rfl⟩

/-- Unequal first components make pairs unequal (cache keys with different
lookup types never collide). -/
theorem cacheKey_ne_of_fst_ne {a b c d : String} (h : a ≠ c) :
    ((a, b) : String × String) ≠ (c, d) :=
  fun hh => absurd (congrArg Prod.fst hh) h

/-- Claim C9 as amended: `cache_user` writes the identity under every
applicable lookup key (id, email, entra_oid), so a get under any one of
them is served from cache; but `invalidate_user_cache` removes only the
single `(lookup_type, identifier)` key it is given — after invalidating the
email key, the id and entra_oid keys still serve the identity, and only the
email key itself is gone. Full invalidation requires one call per key, as
`AzureCachedUserService.update_user` does. -/
theorem c9_amended_put_all_keys_invalidate_single (s : Sys) (u : UserRec)
    (e o : String) (now : Nat)
    (hidne : u.id ≠ "") (he : u.email = some e) (hene : e ≠ "")
    (ho : u.entra_oid = some o) (hone : o ≠ "") :
    ((AzureCachedUserService.get_user_by_id
        (AzureCachedUserService.cache_user s u now) u.id now).1 = some u ∧
     (AzureCachedUserService.get_user_by_email
        (AzureCachedUserService.cache_user s u now) e now).1 = some u ∧
     (AzureCachedUserService.get_user_by_entra_oid
        (AzureCachedUserService.cache_user s u now) o now).1 = some u) ∧
    ((AzureCachedUserService.get_user_by_id
        (AzureCachedUserService.invalidate_user_cache
           (AzureCachedUserService.cache_user s u now) (pyLower e) "email") u.id now).1 =
        some u ∧
     (AzureCachedUserService.get_user_by_entra_oid
        (AzureCachedUserService.invalidate_user_cache
           (AzureCachedUserService.cache_user s u now) (pyLower e) "email") o now).1 =
        some u ∧
     alLookup (AzureCachedUserService.invalidate_user_cache
           (AzureCachedUserService.cache_user s u now) (pyLower e) "email").userCache
        (AzureCachedUserService.cache_key "email" (pyLower e)) = none) := by
  have h1 : ((("user_id", u.id)) : String × String) ≠ ("entra_oid", o) :=
    cacheKey_ne_of_fst_ne (by decide)
  have h2 : ((("user_id", u.id)) : String × String) ≠ ("email", pyLower e) :=
    cacheKey_ne_of_fst_ne (by decide)
  have h3 : ((("email", pyLower e)) : String × String) ≠ ("entra_oid", o) :=
    cacheKey_ne_of_fst_ne (by decide)
  have h3' : ((("entra_oid", o)) : String × String) ≠ ("email", pyLower e) :=
    cacheKey_ne_of_fst_ne (by decide)
  simp only [AzureCachedUserService.cache_user, AzureCachedUserService.get_user_by_id,
    AzureCachedUserService.get_user_by_email, AzureCachedUserService.get_user_by_entra_oid,
    AzureCachedUserService.invalidate_user_cache, AzureCachedUserService.cache_key,
    AzureCachedUserService.default_ttl, he, ho, truthy, Option.getD]
  simp [hidne, hene, hone, alLookup_insert_same, alLookup_insert_ne, alLookup_erase_ne,
    alLookup_erase_same, h1, h2, h3, h3']

/-- Witness for C9-as-amended at a concrete identity and empty initial
state. -/
theorem c9_amended_put_all_keys_invalidate_single_witness :
    ((AzureCachedUserService.get_user_by_id
        (AzureCachedUserService.cache_user ⟨[], [], [], []⟩ c9_user 100) "u1" 100).1 =
        some c9_user ∧
     (AzureCachedUserService.get_user_by_email
        (AzureCachedUserService.cache_user ⟨[], [], [], []⟩ c9_user 100) "a@b.com" 100).1 =
        some c9_user ∧
     (AzureCachedUserService.get_user_by_entra_oid
        (AzureCachedUserService.cache_user ⟨[], [], [], []⟩ c9_user 100) "oid1" 100).1 =
        some c9_user) ∧
    ((AzureCachedUserService.get_user_by_id
        (AzureCachedUserService.invalidate_user_cache
           (AzureCachedUserService.cache_user ⟨[], [], [], []⟩ c9_user 100)
           (pyLower "a@b.com") "email") "u1" 100).1 = some c9_user ∧
     (AzureCachedUserService.get_user_by_entra_oid
        (AzureCachedUserService.invalidate_user_cache
           (AzureCachedUserService.cache_user ⟨[], [], [], []⟩ c9_user 100)
           (pyLower "a@b.com") "email") "oid1" 100).1 = some c9_user ∧
     alLookup (AzureCachedUserService.invalidate_user_cache
           (AzureCachedUserService.cache_user ⟨[], [], [], []⟩ c9_user 100)
           (pyLower "a@b.com") "email").userCache
        (AzureCachedUserService.cache_key "email" (pyLower "a@b.com")) = none) :=
  c9_amended_put_all_keys_invalidate_single ⟨[], [], [], []⟩ c9_user "a@b.com" "oid1" 100
    (by decide) rfl (by decide) rfl (by decide)

/-- A stored admin user for the C3 scenario. -/
def c3_admin_user : UserRec :=
  { id := "user_1", type := some "user", email := some "a@b.com",
    entra_oid := some "oid1", roles := some ["admin"], role := some "admin" }

/-- A valid remote token for that user whose roles claim is present but
empty. -/
def c3_claims : Claims :=
  { oid := some "oid1", preferred_username := some "a@b.com", roles := some [] }

/-- What `get_me` returns in the C3 scenario: the stored admin record with
its roles overwritten by the token's empty roles claim. -/
def c3_me_result : UserRec :=
  { c3_admin_user with auth_type := some "entra", entra_oid := some "oid1", roles := some [] }

/-- Counterexample to claim C3: resolution through the `/me` endpoint
(`get_me`, one of the claim's cited code paths) does **not** preserve the
stored `["admin"]` roles — line 635 of `app/routers/auth.py` overwrites the
returned profile's roles with the token's roles claim verbatim, so an empty
roles claim blanks them to `[]`. -/
theorem c3_counterexample_get_me_blanks_admin_roles :
    (get_me (Except.ok c3_claims) none false ⟨[c3_admin_user], [], [], []⟩ 100).1 =
      Except.ok c3_me_result ∧ c3_me_result.roles ≠ some ["admin"] :=
  ⟨rfl, by decide⟩

/-- Claim C3 as amended: the resolver dependencies
(`get_current_user_cached` — the function the module-level
`get_current_user_any` name is bound to since line 1439 — as well as
`get_current_user_any` and `get_current_user_entra`, which share the same
roles-merge logic) do preserve stored `["admin"]` roles against an empty
token roles claim: roles are overwritten only when the token's roles claim
is non-empty, and `["standard"]` is substituted only when the stored record
itself has none. The `/me` profile endpoint (`get_me`) is the exception: it
copies the token's roles claim verbatim. Proved for the live resolver
`get_current_user_cached`. -/
theorem c3_amended_cached_resolution_preserves_admin_roles
    (payload : Claims) (leg : Option (Option String)) (s : Sys) (u : UserRec)
    (o : String) (now : Nat)
    (hcache : s.userCache = [])
    (hoid : payload.oid = some o) (hone : o ≠ "")
    (hemail : truthy (claimEmail payload) = true)
    (hroles : payload.roles = some [])
    (hfind : s.store.find?
        (fun r => decide (r.type = some "user") && decide (r.entra_oid = some o)) = some u)
    (hu : u.roles = some ["admin"]) :
    (get_current_user_cached (Except.ok payload) leg s now).1 =
      Except.ok { u with auth_type := some "entra", entra_oid := some o } ∧
    ({ u with auth_type := some "entra", entra_oid := some o } : UserRec).roles =
      some ["admin"] := by
  refine ⟨?_, hu⟩
  simp only [get_current_user_cached, get_current_user_cached_entra,
    AzureCachedUserService.get_user_by_entra_oid, CosmosDB.get_user_by_entra_oid,
    AzureCachedUserService.cache_key, hcache, hoid, hroles, hemail, Option.getD]
  simp [truthy, hone, hfind, alLookup, hu, truthyList]

/-- Witness for C3-as-amended: the same admin store and empty-roles token
resolved through `get_current_user_cached` keep `["admin"]`. -/
theorem c3_amended_cached_resolution_preserves_admin_roles_witness :
    (get_current_user_cached (Except.ok c3_claims) none
        ⟨[c3_admin_user], [], [], []⟩ 100).1 =
      Except.ok { c3_admin_user with auth_type := some "entra", entra_oid := some "oid1" } ∧
    ({ c3_admin_user with auth_type := some "entra", entra_oid := some "oid1" } :
        UserRec).roles = some ["admin"] :=
  c3_amended_cached_resolution_preserves_admin_roles c3_claims none
    ⟨[c3_admin_user], [], [], []⟩ c3_admin_user "oid1" 100 rfl rfl (by decide)
    (by decide) rfl (by decide) rfl

/-- A stored user known by email only (no external subject), for C4. -/
def c4_legacy_user : UserRec :=
  { id := "user_1", type := some "user", email := some "a@b.com",
    roles := some ["standard"], role := some "standard" }

/-- A valid remote token for that user carrying subject `abc123`. -/
def c4_claims : Claims :=
  { oid := some "abc123", preferred_username := some "a@b.com" }

/-- The stored record after the migration upsert: subject attached. -/
def c4_migrated : UserRec :=
  { c4_legacy_user with entra_oid := some "abc123", updated_at := some 50 }

/-- Claim C4 evaluated at its failing input (`code_bug`): for a record
stored by email only and a token with subject `abc123`,

1. `get_current_user_entra` **persists** the subject onto the stored record
   (the upsert at `app/routers/auth.py` line 333 happens first) but then
   calls `invalidate_user_cache` with keyword arguments its signature
   rejects, so the resolution itself fails with the 401 produced by the
   handler at line 344 instead of completing;
2. `get_current_user_cached` completes and returns the identity with the
   subject attached, but never writes the subject to the user store — a
   store lookup by subject alone still finds nothing;
3. only the original `get_current_user_any` behaves as the claim states:
   it completes, persists the subject, and a subsequent lookup by subject
   alone returns the record. -/
theorem c4_subject_migration_divergence :
    (get_current_user_entra (Except.ok c4_claims) ⟨[c4_legacy_user], [], [], []⟩ 50).1 =
      Except.error (Err.http 401 "Invalid Entra ID token or user migration error") ∧
    (get_current_user_entra (Except.ok c4_claims) ⟨[c4_legacy_user], [], [], []⟩ 50).2.store =
      [c4_migrated] ∧
    (CosmosDB.get_user_by_entra_oid
        (get_current_user_entra (Except.ok c4_claims) ⟨[c4_legacy_user], [], [], []⟩ 50).2
        "abc123").1 = some c4_migrated ∧
    (get_current_user_cached (Except.ok c4_claims) none ⟨[c4_legacy_user], [], [], []⟩ 50).1 =
      Except.ok { c4_legacy_user with auth_type := some "entra", entra_oid := some "abc123" } ∧
    (get_current_user_cached (Except.ok c4_claims) none ⟨[c4_legacy_user], [], [], []⟩ 50).2.store =
      [c4_legacy_user] ∧
    (CosmosDB.get_user_by_entra_oid
        (get_current_user_cached (Except.ok c4_claims) none ⟨[c4_legacy_user], [], [], []⟩ 50).2
        "abc123").1 = none ∧
    (get_current_user_any ⟨true, false⟩ (Except.ok c4_claims) none "tok"
        ⟨[c4_legacy_user], [], [], []⟩ 50).1 =
      Except.ok { c4_migrated with auth_type := some "entra" } ∧
    (get_current_user_any ⟨true, false⟩ (Except.ok c4_claims) none "tok"
        ⟨[c4_legacy_user], [], [], []⟩ 50).2.store = [c4_migrated] ∧
    (CosmosDB.get_user_by_entra_oid
        (get_current_user_any ⟨true, false⟩ (Except.ok c4_claims) none "tok"
            ⟨[c4_legacy_user], [], [], []⟩ 50).2 "abc123").1 = some c4_migrated :=
  ⟨rfl, rfl, rfl, rfl, rfl, rfl, rfl, rfl, rfl⟩

/-- A service (client-credentials) token: application id present,
`appidacr = "1"`, no roles claim, no human subject or email. -/
def c5_claims : Claims :=
  { appid := some "svc-app", appidacr := some "1" }

/-- The synthetic service-principal identity the resolver returns for it. -/
def c5_app_identity : UserRec :=
  { id := "app_svc-app", roles := some [], auth_type := some "entra_app",
    display_name := some "app:svc-app", is_active := some true }

/-- Counterexample to claim C5: a successful resolution of a service
(app-only) token with `appidacr = "1"` and no roles claim yields an
identity whose roles list is **empty** — the code computes `roles or []`
rather than defaulting to `["standard"]`, so "roles list never empty after
resolution" fails on this path. -/
theorem c5_counterexample_app_token_resolves_with_empty_roles :
    (get_current_user_cached (Except.ok c5_claims) none ⟨[], [], [], []⟩ 100).1 =
      Except.ok c5_app_identity ∧ c5_app_identity.roles = some [] :=
  ⟨rfl, rfl⟩

/-- The synthetic service-principal identity both resolvers build for an
app-only token (`app/routers/auth.py` lines 755-763 and 916-924). -/
def app_only_identity (payload : Claims) : UserRec :=
  { id := "app_" ++ (claimAppId payload).getD "",
    email := none, entra_oid := none,
    roles := some (payload.roles.getD []),
    auth_type := some "entra_app",
    display_name := some ("app:" ++ (claimAppId payload).getD ""),
    is_active := some true }

/-- The two spellings of the roles-claim truthiness coincide:
`payload.get("roles", None)` is truthy iff `payload.get("roles", [])` is a
non-empty list. -/
theorem truthyList_eq_getD (o : Option (List String)) :
    truthyList o = !(o.getD []).isEmpty := by
  cases o <;> simp [truthyList]

/-- Claim C6: for a verified service/app-only token (no usable human
subject/email; application id present; `appidacr = "1"` or non-empty roles
claim without `scp`), both resolvers return the synthetic service-principal
identity (`id = "app_<appid>"`, `auth_type = "entra_app"`) directly:
`get_current_user_cached` leaves the whole state — store, user-record
cache, effect log, auth cache — untouched, and the original
`get_current_user_any` changes nothing but the `AuthenticationCache`, into
which it writes the identity under the token hash (never the
UserRecordCache or the store). -/
theorem c6_app_only_token_bypasses_user_store (payload : Claims)
    (leg : Option (Option String)) (cfg : AuthCfg) (token : String) (s : Sys)
    (now : Nat)
    (hhuman : (truthy (claimEmail payload) && truthy payload.oid) = false)
    (happ : isAppOnly payload (truthyList payload.roles) = true)
    (hcfg : cfg.entraEnabled = true)
    (hmiss : alLookup s.authCache (generate_token_hash token) = none) :
    get_current_user_cached (Except.ok payload) leg s now =
      (Except.ok (app_only_identity payload), s) ∧
    get_current_user_any cfg (Except.ok payload) leg token s now =
      (Except.ok (app_only_identity payload),
       { s with
           authCache :=
             AuthenticationCache.set s.authCache (generate_token_hash token)
               (app_only_identity payload) now }) := by
  have happ' : isAppOnly payload (!(payload.roles.getD []).isEmpty) = true := by
    rw [← truthyList_eq_getD]; exact happ
  constructor
  · simp only [get_current_user_cached, get_current_user_cached_entra, hhuman,
      Bool.not_false, if_pos, happ, app_only_identity]
  · simp only [get_current_user_any, AuthenticationCache.get, hmiss,
      get_current_user_any_entra, hhuman, Bool.not_false, happ', app_only_identity, hcfg,
      if_true]

/-- A concrete service token for the C6 witness. -/
def c6_claims : Claims := { appid := some "svc", appidacr := some "1" }

/-- Witness for C6 at a concrete service token and empty state. -/
theorem c6_app_only_token_bypasses_user_store_witness :
    get_current_user_cached (Except.ok c6_claims) none ⟨[], [], [], []⟩ 9 =
      (Except.ok (app_only_identity c6_claims), ⟨[], [], [], []⟩) ∧
    get_current_user_any ⟨true, true⟩ (Except.ok c6_claims) none "tok" ⟨[], [], [], []⟩ 9 =
      (Except.ok (app_only_identity c6_claims),
       { Sys.mk [] [] [] [] with
           authCache :=
             AuthenticationCache.set [] (generate_token_hash "tok")
               (app_only_identity c6_claims) 9 }) :=
  c6_app_only_token_bypasses_user_store c6_claims none ⟨true, true⟩ "tok"
    ⟨[], [], [], []⟩ 9 (by decide) (by decide) rfl rfl

/-- Every successful exit of the Entra branch of the original
`get_current_user_any` has just written the returned identity into the
`AuthenticationCache` under the token hash (lines 926, 954 and 968 of
`app/routers/auth.py`). -/
theorem get_current_user_any_entra_ok_caches (ver : Except Err Claims)
    (token_hash : String) (s : Sys) (now : Nat) (u : UserRec) (s1 : Sys)
    (h : get_current_user_any_entra ver token_hash s now = (Except.ok u, s1)) :
    alLookup s1.authCache token_hash = some ⟨u, now⟩ := by
  cases ver with
  | error e => simp [get_current_user_any_entra] at h
  | ok payload =>
    simp only [get_current_user_any_entra] at h
    repeat' split at h
    all_goals try simp at h
    all_goals (
      obtain ⟨hu, hs⟩ := h
      subst hu
      subst hs
      simp [AuthenticationCache.set, alLookup_insert_same])

/-- Every successful exit of the legacy branch of the original
`get_current_user_any` has written the returned identity into the
`AuthenticationCache` under the token hash (line 996 of
`app/routers/auth.py`). -/
theorem get_current_user_any_legacy_ok_caches (leg : Option (Option String))
    (token_hash : String) (s : Sys) (now : Nat) (u : UserRec) (s1 : Sys)
    (h : get_current_user_any_legacy leg token_hash s now = (Except.ok u, s1)) :
    alLookup s1.authCache token_hash = some ⟨u, now⟩ := by
  simp only [get_current_user_any_legacy] at h
  repeat' split at h
  all_goals try simp at h
  all_goals (
    obtain ⟨hu, hs⟩ := h
    subst hu
    subst hs
    simp [AuthenticationCache.set, alLookup_insert_same])

/-- Claim C1: if a token resolves successfully through the original
`get_current_user_any` (with no valid `AuthenticationCache` entry for its
hash beforehand, i.e. a genuine first resolution), then a second call with
the same token within the cache TTL (default 300 s, `t2 - t1 < 300`) and
with no intervening mutation returns exactly `(ok u, s1)` again: the
identity is taken from the token-hash-keyed `AuthenticationCache`, is
identical to the first call's result, and the state — store, user-record
cache and the store-effect log included — is completely untouched, so no
user-store lookup or write happens at all. -/
theorem c1_second_resolve_served_from_auth_cache (cfg : AuthCfg)
    (ver : Except Err Claims) (leg : Option (Option String)) (token : String)
    (s s1 : Sys) (u : UserRec) (t1 t2 : Nat)
    (hmiss : alLookup s.authCache (generate_token_hash token) = none)
    (h1 : get_current_user_any cfg ver leg token s t1 = (Except.ok u, s1))
    (httl : t2 - t1 < AuthenticationCache.ttl_seconds) :
    get_current_user_any cfg ver leg token s1 t2 = (Except.ok u, s1) := by
  have hcache : alLookup s1.authCache (generate_token_hash token) = some ⟨u, t1⟩ := by
    simp only [get_current_user_any, AuthenticationCache.get, hmiss] at h1
    split at h1
    · split at h1
      · rename_i x sx heq
        simp only [Prod.mk.injEq, Except.ok.injEq] at h1
        obtain ⟨hu, hs⟩ := h1
        subst hu; subst hs
        exact get_current_user_any_entra_ok_caches _ _ _ _ _ _ heq
      · split at h1
        · exact get_current_user_any_legacy_ok_caches _ _ _ _ _ _ h1
        · simp at h1
    · split at h1
      · exact get_current_user_any_legacy_ok_caches _ _ _ _ _ _ h1
      · simp at h1
  simp only [get_current_user_any, AuthenticationCache.get, hcache]
  simp [httl]

/-- Concrete stored user for the C1 witness. -/
def c1_user : UserRec :=
  { id := "user_1", type := some "user", email := some "a@b.com",
    roles := some ["standard"], role := some "standard" }

/-- Identity the first C1 call returns (legacy path). -/
def c1_result : UserRec := { c1_user with auth_type := some "legacy" }

/-- State after the first C1 call: one store round trip, result cached
under the token hash. -/
def c1_s1 : Sys :=
  { store := [c1_user], userCache := [],
    authCache := AuthenticationCache.set [] (generate_token_hash "tok") c1_result 0,
    ops := [StoreOp.readEmail "a@b.com"] }

/-- Witness for C1: a concrete first resolution at `t1 = 0` followed by a
repeat call at `t2 = 100` that returns the identical identity and leaves
the state untouched. -/
theorem c1_second_resolve_served_from_auth_cache_witness :
    get_current_user_any ⟨false, true⟩ (Except.error Err.notFound)
      (some (some "a@b.com")) "tok" c1_s1 100 = (Except.ok c1_result, c1_s1) :=
  c1_second_resolve_served_from_auth_cache ⟨false, true⟩ (Except.error Err.notFound)
    (some (some "a@b.com")) "tok" ⟨[c1_user], [], [], []⟩ c1_s1 c1_result 0 100
    rfl rfl (by decide)

theorem find?_append_of_eq_none {α : Type} (l₁ l₂ : List α) (p : α → Bool)
    (h : l₁.find? p = none) : (l₁ ++ l₂).find? p = l₂.find? p := by
  induction l₁ with
  | nil => rfl
  | cons a t ih =>
      cases hp : p a with
      | true => simp [List.find?, hp] at h
      | false =>
          simp only [List.find?, hp] at h
          rw [List.cons_append, List.find?]
          rw [hp]
          exact ih h

theorem createCount_append (l m : List StoreOp) :
    createCount (l ++ m) = createCount l + createCount m := by
  simp [createCount, List.filter_append]

theorem createCount_no_create (e : String) : createCount [StoreOp.readEmail e] = 0 := by
  simp [createCount]

theorem user_prefix_ne_empty (x : String) : "user_" ++ x ≠ "" := by
  intro h
  have hl := congrArg String.length h
  simp [String.length_append] at hl
  exact absurd hl.1 (by decide)

/-- First execution of the `get_or_create_entra_user` critical section for a
fresh identity (no record by email or subject, fresh id): both re-checks
miss, one store create is issued, and the created document — with the
hybrid defaults added by `CosmosDB.create_user` — is cached under all its
lookup keys and returned. -/
theorem get_or_create_entra_user_first (s : Sys) (email entra_oid : String)
    (roles : List String) (t : Nat)
    (hoid : entra_oid ≠ "") (hmailne : email ≠ "")
    (hnorm : pyNormalizeEmail email = email)
    (hemail : ∀ r ∈ s.store, r.email ≠ some email)
    (hoidm : ∀ r ∈ s.store, r.entra_oid ≠ some entra_oid)
    (hid : ∀ r ∈ s.store, r.id ≠ "user_" ++ toString (1000 * t)) :
    get_or_create_entra_user s email entra_oid roles t =
      (Except.ok (created_entra_user email entra_oid roles t),
       AzureCachedUserService.cache_user
         { s with
             store := s.store ++ [created_entra_user email entra_oid roles t],
             ops := s.ops ++ [StoreOp.readEmail email, StoreOp.readOid entra_oid,
                              StoreOp.readEmail email, StoreOp.readOid entra_oid,
                              StoreOp.create ("user_" ++ toString (1000 * t))] }
         (created_entra_user email entra_oid roles t) t) := by
  have hfe : s.store.find?
      (fun r => decide (r.type = some "user") && decide (r.email = some email)) = none := by
    rw [List.find?_eq_none]
    intro r hr
    simp [hemail r hr]
  have hfo : s.store.find?
      (fun r => decide (r.type = some "user") && decide (r.entra_oid = some entra_oid)) =
      none := by
    rw [List.find?_eq_none]
    intro r hr
    simp [hoidm r hr]
  have hany : s.store.any (fun r => decide (r.id = "user_" ++ toString (1000 * t))) =
      false := by
    rw [List.any_eq_false]
    intro r hr
    simp [hid r hr]
  simp only [get_or_create_entra_user, CosmosDB.get_user_by_email,
    CosmosDB.get_user_by_entra_oid, CosmosDB.create_user, authContainer.create_item,
    created_entra_user, hnorm, hoid, hmailne]
  simp [hnorm, hoid, hmailne, hfe, hfo, hany, truthy, List.append_assoc,
    user_prefix_ne_empty]

/-- A later execution of the `get_or_create_entra_user` critical section for
the same identity: the re-check by email finds the record created by the
first execution (its subject already attached), so it is returned as-is —
one read, no write, no create. -/
theorem get_or_create_entra_user_subsequent (s : Sys) (email entra_oid : String)
    (roles : List String) (t : Nat) (u : UserRec)
    (hnorm : pyNormalizeEmail email = email)
    (hfind : s.store.find?
        (fun r => decide (r.type = some "user" ∧ r.email = some email)) = some u)
    (huoid : truthy u.entra_oid = true) :
    get_or_create_entra_user s email entra_oid roles t =
      (Except.ok u, { s with ops := s.ops ++ [StoreOp.readEmail email] }) := by
  simp only [get_or_create_entra_user, CosmosDB.get_user_by_email, hnorm]
  rw [hfind]
  simp [huoid]

/-- After the first execution has created the user, every further execution
in the sequence returns the same record and issues no further create. -/
theorem run_get_or_create_entra_user_tail (email entra_oid : String)
    (roles : List String) (u : UserRec) (base : List UserRec)
    (hnorm : pyNormalizeEmail email = email)
    (hbase : base.find?
        (fun r => decide (r.type = some "user" ∧ r.email = some email)) = none)
    (hu1 : u.type = some "user") (hu2 : u.email = some email)
    (huoid : truthy u.entra_oid = true) :
    ∀ (ts : List Nat) (s : Sys), s.store = base ++ [u] →
      (run_get_or_create_entra_user email entra_oid roles ts s).1 =
          List.replicate ts.length (Except.ok u) ∧
      (run_get_or_create_entra_user email entra_oid roles ts s).2.store = s.store ∧
      createCount (run_get_or_create_entra_user email entra_oid roles ts s).2.ops =
          createCount s.ops := by
  intro ts
  induction ts with
  | nil => intro s hs; exact ⟨rfl, rfl, rfl⟩
  | cons t ts ih =>
      intro s hs
      have hfind : s.store.find?
          (fun r => decide (r.type = some "user" ∧ r.email = some email)) =
          some u := by
        rw [hs, find?_append_of_eq_none _ _ _ hbase]
        simp [List.find?, hu1, hu2]
      have hcall := get_or_create_entra_user_subsequent s email entra_oid roles t u
        hnorm hfind huoid
      have hrec := ih { s with ops := s.ops ++ [StoreOp.readEmail email] } (by simpa using hs)
      simp only [run_get_or_create_entra_user, hcall]
      refine ⟨?_, ?_, ?_⟩
      · simpa [List.replicate] using hrec.1
      · simpa using hrec.2.1
      · rw [hrec.2.2]
        simp [createCount_append, createCount_no_create]

theorem cache_user_ops (s : Sys) (u : UserRec) (now : Nat) :
    (AzureCachedUserService.cache_user s u now).ops = s.ops := rfl

theorem cache_user_store (s : Sys) (u : UserRec) (now : Nat) :
    (AzureCachedUserService.cache_user s u now).store = s.store := rfl

/-- Claim C2: N executions of the `get_or_create_entra_user` critical
section for the same first-seen subject (serialised by the per-identifier
lock; `t1 :: ts` are the call times) issue exactly **one** user-store
create: the first call creates the record, every later call finds it by its
email re-check and returns it unchanged, so all N callers receive the same
record and the store gains exactly that one document. -/
theorem c2_concurrent_first_time_creates_once (s : Sys) (email entra_oid : String)
    (roles : List String) (t1 : Nat) (ts : List Nat)
    (hoid : entra_oid ≠ "") (hmailne : email ≠ "")
    (hnorm : pyNormalizeEmail email = email)
    (hemail : ∀ r ∈ s.store, r.email ≠ some email)
    (hoidm : ∀ r ∈ s.store, r.entra_oid ≠ some entra_oid)
    (hid : ∀ r ∈ s.store, r.id ≠ "user_" ++ toString (1000 * t1)) :
    (run_get_or_create_entra_user email entra_oid roles (t1 :: ts) s).1 =
      List.replicate (ts.length + 1)
        (Except.ok (created_entra_user email entra_oid roles t1)) ∧
    (run_get_or_create_entra_user email entra_oid roles (t1 :: ts) s).2.store =
      s.store ++ [created_entra_user email entra_oid roles t1] ∧
    createCount (run_get_or_create_entra_user email entra_oid roles (t1 :: ts) s).2.ops =
      createCount s.ops + 1 := by
  have hfirst := get_or_create_entra_user_first s email entra_oid roles t1 hoid hmailne
    hnorm hemail hoidm hid
  have hbase : s.store.find?
      (fun r => decide (r.type = some "user" ∧ r.email = some email)) = none := by
    rw [List.find?_eq_none]
    intro r hr
    simp [hemail r hr]
  have htruthy : truthy (created_entra_user email entra_oid roles t1).entra_oid = true := by
    simp [created_entra_user, truthy, hoid]
  have htail := run_get_or_create_entra_user_tail email entra_oid roles
    (created_entra_user email entra_oid roles t1) s.store hnorm hbase rfl rfl htruthy ts
    (AzureCachedUserService.cache_user
      { s with
          store := s.store ++ [created_entra_user email entra_oid roles t1],
          ops := s.ops ++ [StoreOp.readEmail email, StoreOp.readOid entra_oid,
                           StoreOp.readEmail email, StoreOp.readOid entra_oid,
                           StoreOp.create ("user_" ++ toString (1000 * t1))] }
      (created_entra_user email entra_oid roles t1) t1)
    rfl
  simp only [run_get_or_create_entra_user, hfirst]
  refine ⟨?_, ?_, ?_⟩
  · rw [List.replicate_succ]
    simpa using htail.1
  · simpa using htail.2.1
  · rw [htail.2.2, cache_user_ops]
    simp [createCount_append, createCount]

/-- Witness for C2: three serialised first-time calls for the same subject
on an empty store — one create, all three callers get the same record. -/
theorem c2_concurrent_first_time_creates_once_witness :
    (run_get_or_create_entra_user "a@b.com" "oid1" [] [1, 2, 3] ⟨[], [], [], []⟩).1 =
      List.replicate 3 (Except.ok (created_entra_user "a@b.com" "oid1" [] 1)) ∧
    (run_get_or_create_entra_user "a@b.com" "oid1" [] [1, 2, 3] ⟨[], [], [], []⟩).2.store =
      [] ++ [created_entra_user "a@b.com" "oid1" [] 1] ∧
    createCount
        (run_get_or_create_entra_user "a@b.com" "oid1" [] [1, 2, 3] ⟨[], [], [], []⟩).2.ops =
      createCount [] + 1 :=
  c2_concurrent_first_time_creates_once ⟨[], [], [], []⟩ "a@b.com" "oid1" [] 1 [2, 3]
    (by decide) (by decide) (by decide) (by decide) (by decide) (by decide)

theorem truthyList_imp (o : Option (List String)) (h : truthyList o = true) :
    o ≠ some [] ∧ o ≠ none := by
  cases o with
  | none => simp [truthyList] at h
  | some l => cases l <;> simp_all [truthyList]

theorem cached_get_user_by_entra_oid_store (s : Sys) (o : String) (now : Nat) :
    (AzureCachedUserService.get_user_by_entra_oid s o now).2.store = s.store := by
  simp only [AzureCachedUserService.get_user_by_entra_oid, CosmosDB.get_user_by_entra_oid]
  split <;> rfl

theorem cached_get_user_by_email_store (s : Sys) (e : String) (now : Nat) :
    (AzureCachedUserService.get_user_by_email s e now).2.store = s.store := by
  simp only [AzureCachedUserService.get_user_by_email, CosmosDB.get_user_by_email]
  split <;> rfl

theorem mem_of_get_user_by_email {s s1 : Sys} {e : String} {w : UserRec}
    (h : CosmosDB.get_user_by_email s e = (some w, s1)) : w ∈ s.store := by
  have hf := congrArg Prod.fst h
  simp only [CosmosDB.get_user_by_email] at hf
  exact List.mem_of_find?_eq_some hf

theorem mem_of_get_user_by_entra_oid {s s1 : Sys} {o : String} {w : UserRec}
    (h : CosmosDB.get_user_by_entra_oid s o = (some w, s1)) : w ∈ s.store := by
  have hf := congrArg Prod.fst h
  simp only [CosmosDB.get_user_by_entra_oid] at hf
  exact List.mem_of_find?_eq_some hf

theorem get_user_by_email_store (s : Sys) (e : String) :
    (CosmosDB.get_user_by_email s e).2.store = s.store := rfl

theorem get_user_by_entra_oid_store (s : Sys) (o : String) :
    (CosmosDB.get_user_by_entra_oid s o).2.store = s.store := rfl

/-- `CosmosDB.create_user` only ever returns an already-stored record (the
silent dedupe) or the finalised input document, whose roles it does not
touch. -/
theorem create_user_roles_truthy (s : Sys) (d : UserRec) (now : Nat)
    (u : UserRec) (s' : Sys)
    (hstore : ∀ r ∈ s.store, truthyList r.roles = true)
    (hd : truthyList d.roles = true)
    (h : CosmosDB.create_user s d now = (Except.ok u, s')) :
    truthyList u.roles = true := by
  simp only [CosmosDB.create_user, authContainer.create_item] at h
  repeat' split at h
  all_goals try simp at h
  all_goals (
    obtain ⟨hu, hs⟩ := h
    subst hs
    subst hu)
  all_goals try exact hd
  case h_1.intro =>
    rename_i heq
    split at heq
    · exact hstore _ (mem_of_get_user_by_email heq)
    · simp at heq
  case h_2.h_1.intro =>
    rename_i s21 heq1 b2 e2 s22 heq2
    have hss : s21.store = s.store := by
      split at heq1 <;>
        · have h2 := congrArg (fun p => p.2.store) heq1
          simpa [CosmosDB.get_user_by_email] using h2.symm
    split at heq2
    · have hm := mem_of_get_user_by_entra_oid heq2
      rw [hss] at hm
      exact hstore _ hm
    · simp at heq2

/-- Whatever record the `get_or_create_entra_user` critical section returns
has a truthy (non-empty, present) roles list, provided every user document
already in the store has one: existing records are returned with their
roles untouched, and a freshly created record gets `roles or ["standard"]`. -/
theorem create_user_error_store (s : Sys) (d : UserRec) (now : Nat) (e : Err)
    (s' : Sys) (h : CosmosDB.create_user s d now = (Except.error e, s')) :
    s'.store = s.store := by
  simp only [CosmosDB.create_user, CosmosDB.get_user_by_email,
    CosmosDB.get_user_by_entra_oid, authContainer.create_item] at h
  repeat' split at h
  all_goals try simp at h
  all_goals (
    obtain ⟨he, hs⟩ := h
    subst hs
    try rfl)
  case h_2.h_2.isTrue.intro =>
    rename_i b1 s21 heq1 b0 s20 heq0 hc
    have h21 : s21.store = s.store := by
      split at heq1 <;>
        · have h2 := congrArg (fun p => p.2.store) heq1
          simpa using h2.symm
    have h20 : s20.store = s.store := by
      split at heq0 <;>
        · have h2 := congrArg (fun p => p.2.store) heq0
          simpa [h21] using h2.symm
    simpa using h20
  case h_2.h_2.isFalse.isTrue.h_1.isTrue.intro =>
    rename_i b1 s21 heq1 b0 s20 heq0 hc1 hc2 x0 s0 heqC hc3
    have h21 : s21.store = s.store := by
      split at heq1 <;>
        · have h2 := congrArg (fun p => p.2.store) heq1
          simpa using h2.symm
    have h20 : s20.store = s.store := by
      split at heq0 <;>
        · have h2 := congrArg (fun p => p.2.store) heq0
          simpa [h21] using h2.symm
    simpa using h20
  case h_2.h_2.isFalse.isTrue.h_1.isFalse.intro =>
    rename_i b1 s21 heq1 b0 s20 heq0 hc1 hc2 x0 s0 heqC hc3
    have h21 : s21.store = s.store := by
      split at heq1 <;>
        · have h2 := congrArg (fun p => p.2.store) heq1
          simpa using h2.symm
    have h20 : s20.store = s.store := by
      split at heq0 <;>
        · have h2 := congrArg (fun p => p.2.store) heq0
          simpa [h21] using h2.symm
    simpa using h20
  case h_2.h_2.isFalse.isTrue.h_2.intro =>
    rename_i b1 s21 heq1 b0 s20 heq0 hc1 hc2 x0 heqC
    have h21 : s21.store = s.store := by
      split at heq1 <;>
        · have h2 := congrArg (fun p => p.2.store) heq1
          simpa using h2.symm
    have h20 : s20.store = s.store := by
      split at heq0 <;>
        · have h2 := congrArg (fun p => p.2.store) heq0
          simpa [h21] using h2.symm
    simpa using h20

/-- Whatever record the `get_or_create_entra_user` critical section returns
has a truthy (non-empty, present) roles list, provided every user document
already in the store has one: existing records are returned with their
roles untouched, and a freshly created record gets `roles or ["standard"]`. -/
theorem get_or_create_entra_user_roles_truthy (s : Sys) (email entra_oid : String)
    (roles : List String) (t : Nat) (u : UserRec) (s' : Sys)
    (hstore : ∀ r ∈ s.store, truthyList r.roles = true)
    (h : get_or_create_entra_user s email entra_oid roles t = (Except.ok u, s')) :
    truthyList u.roles = true := by
  simp only [get_or_create_entra_user] at h
  repeat' split at h
  all_goals try simp at h
  all_goals (
    obtain ⟨hu, hs⟩ := h
    subst hs
    subst hu)
  case h_1.isTrue.intro =>
    rename_i b e0 s2 heq hcond
    exact hstore e0 (mem_of_get_user_by_email heq)
  case h_1.isFalse.intro =>
    rename_i b e0 s2 heq hcond
    exact hstore e0 (mem_of_get_user_by_email heq)
  case h_2.h_1.isTrue.intro =>
    rename_i b1 s21 heq1 b0 e0 s22 heq2 hcond
    have h21 : s21.store = s.store := by
      have h2 := congrArg (fun p => p.2.store) heq1
      simpa [CosmosDB.get_user_by_email] using h2.symm
    split at heq2
    · have hm := mem_of_get_user_by_entra_oid heq2
      rw [h21] at hm
      exact hstore e0 hm
    · simp at heq2
  case h_2.h_1.isFalse.intro =>
    rename_i b1 s21 heq1 b0 e0 s22 heq2 hcond
    have h21 : s21.store = s.store := by
      have h2 := congrArg (fun p => p.2.store) heq1
      simpa [CosmosDB.get_user_by_email] using h2.symm
    split at heq2
    · have hm := mem_of_get_user_by_entra_oid heq2
      rw [h21] at hm
      exact hstore _ hm
    · simp at heq2
  case h_2.h_2.h_1.intro =>
    rename_i b1 s21 heq2 b0 s20 heq1 x u1 s1 heq0
    have h21 : s21.store = s.store := by
      have h2 := congrArg (fun p => p.2.store) heq2
      simpa [CosmosDB.get_user_by_email] using h2.symm
    have h20 : s20.store = s.store := by
      split at heq1
      · have h2 := congrArg (fun p => p.2.store) heq1
        simpa [CosmosDB.get_user_by_entra_oid, h21] using h2.symm
      · have h2 := congrArg (fun p => p.2.store) heq1
        simpa [h21] using h2.symm
    refine create_user_roles_truthy _ _ _ _ _ ?_ ?_ heq0
    · rw [h20]; exact hstore
    · cases roles <;> simp [truthyList]
  case h_2.h_2.h_2.h_1.intro =>
    rename_i b2 s22 heq3 b1 s21 heq2 x a s1 heq1 b0 e0 s20 heq0
    have h22 : s22.store = s.store := by
      have h2 := congrArg (fun p => p.2.store) heq3
      simpa [CosmosDB.get_user_by_email] using h2.symm
    have h21 : s21.store = s.store := by
      split at heq2
      · have h2 := congrArg (fun p => p.2.store) heq2
        simpa [CosmosDB.get_user_by_entra_oid, h22] using h2.symm
      · have h2 := congrArg (fun p => p.2.store) heq2
        simpa [h22] using h2.symm
    have h1 : s1.store = s.store := by
      rw [create_user_error_store _ _ _ _ _ heq1, h21]
    have hm := mem_of_get_user_by_email heq0
    rw [h1] at hm
    exact hstore _ hm

/-- Every identity the legacy branch of `get_current_user_cached` returns
has roles `[current_role]` — a non-empty list. -/
theorem get_current_user_cached_legacy_roles (leg : Option (Option String))
    (s : Sys) (now : Nat) (u : UserRec) (s' : Sys)
    (h : get_current_user_cached_legacy leg s now = (Except.ok u, s')) :
    truthyList u.roles = true := by
  simp only [get_current_user_cached_legacy] at h
  repeat' split at h
  all_goals try simp at h
  all_goals (
    obtain ⟨hu, hs⟩ := h
    subst hs
    subst hu
    simp [truthyList])

/-- The two-step cached lookup (`by entra_oid`, else `by email`) of the
resolvers never changes the store. -/
theorem cached_lookup_pair_store (s : Sys) (o e : String) (now : Nat) :
    (match AzureCachedUserService.get_user_by_entra_oid s o now with
      | (some u, s1) => (some u, s1)
      | (none, s1) => AzureCachedUserService.get_user_by_email s1 e now).2.store = s.store := by
  rcases hoid : AzureCachedUserService.get_user_by_entra_oid s o now with ⟨fo, s1⟩
  have h1 : s1.store = s.store := by
    have h2 := congrArg (fun p => p.2.store) hoid
    simpa [cached_get_user_by_entra_oid_store] using h2.symm
  cases fo with
  | none => simp [cached_get_user_by_email_store, h1]
  | some w => simpa using h1

/-- Every identity the Entra branch of `get_current_user_cached` returns is
either the service-principal variant or has a truthy roles list (the
defensive fallback on the found path; `roles or ["standard"]` on the create
path), provided stored user documents all have truthy roles. -/
theorem get_current_user_cached_entra_roles (ver : Except Err Claims) (s : Sys)
    (now : Nat) (u : UserRec) (s' : Sys)
    (hstore : ∀ r ∈ s.store, truthyList r.roles = true)
    (h : get_current_user_cached_entra ver s now = (Except.ok u, s'))
    (happ : u.auth_type ≠ some "entra_app") :
    truthyList u.roles = true := by
  cases ver with
  | error e => simp [get_current_user_cached_entra] at h
  | ok payload =>
    simp only [get_current_user_cached_entra] at h
    repeat' split at h
    all_goals try simp at h
    all_goals (
      obtain ⟨hu, hs⟩ := h
      subst hs
      subst hu)
    all_goals try exact absurd rfl happ
    all_goals try simp [truthyList]
    case ok.isFalse.h_2.h_1.intro =>
      rename_i hc xx heqF x user s1 heq
      exact get_or_create_entra_user_roles_truthy _ _ _ _ _ _ _
        (by rw [cached_lookup_pair_store]; exact hstore) heq
    all_goals simp_all [truthyList]

/-- Claim C5 as amended: a successful resolution through
`get_current_user_cached` (the function bound to `get_current_user_any`
since line 1439) yields a non-empty roles list for every **human** identity
— remote user token with or without a roles claim (found or freshly
created user) and local token — provided the stored user documents carry
non-empty roles; the exception forced by the counterexample is the
service/app-only variant (`auth_type = "entra_app"`), whose roles list is
the token's roles claim and may be empty (and the `/me` endpoint, which
copies the token's roles claim verbatim). -/
theorem c5_amended_human_resolution_roles_nonempty (ver : Except Err Claims)
    (leg : Option (Option String)) (s : Sys) (now : Nat) (u : UserRec) (s' : Sys)
    (hstore : ∀ r ∈ s.store, truthyList r.roles = true)
    (h : get_current_user_cached ver leg s now = (Except.ok u, s'))
    (happ : u.auth_type ≠ some "entra_app") :
    u.roles ≠ some [] ∧ u.roles ≠ none := by
  refine truthyList_imp _ ?_
  simp only [get_current_user_cached] at h
  split at h
  · rename_i user s1 heq
    simp only [Prod.mk.injEq, Except.ok.injEq] at h
    obtain ⟨hu, hs⟩ := h
    subst hu
    exact get_current_user_cached_entra_roles ver s now user s1 hstore heq happ
  · exact get_current_user_cached_legacy_roles leg _ now u s' h

/-- Concrete stored user for the C5 witness. -/
def c5w_user : UserRec :=
  { id := "user_7", type := some "user", email := some "w@b.com",
    entra_oid := some "oidw", roles := some ["standard"], role := some "standard" }

/-- Token claims of the C5 witness. -/
def c5w_claims : Claims := { oid := some "oidw", preferred_username := some "w@b.com" }

/-- Identity returned in the C5 witness scenario. -/
def c5w_result : UserRec := { c5w_user with auth_type := some "entra" }

/-- State after the C5 witness resolution: the by-oid lookup missed the
cache, fetched the record and cached it. -/
def c5w_s1 : Sys :=
  { store := [c5w_user],
    userCache := alInsert [] ("entra_oid", "oidw") ⟨some c5w_user, 3, 900⟩,
    authCache := [], ops := [StoreOp.readOid "oidw"] }

/-- Witness for C5-as-amended at a concrete human-user resolution. -/
theorem c5_amended_human_resolution_roles_nonempty_witness :
    c5w_result.roles ≠ some [] ∧ c5w_result.roles ≠ none :=
  c5_amended_human_resolution_roles_nonempty (Except.ok c5w_claims) none
    ⟨[c5w_user], [], [], []⟩ 3 c5w_result c5w_s1 (by decide) rfl (by decide)
